/-
Verification of the MediSync health-intelligence core against its
natural-language specification.

The JavaScript models are shallowly embedded: every SQL query is translated
to a pure function over an explicit database state (lists of rows), the
`try/catch` fail-open structure is translated to functions over
`Except`-valued query outcomes, and JavaScript numbers that only ever hold
small non-negative integers are modelled as `Nat` (dates and timestamps as
`Int` day/second counts).
-/
import Mathlib

namespace MediSync

/-! ## Database rows (schema from the repository's `CREATE TABLE` script) -/

/-- Row of `patients`.  `age INT` is nullable in the schema. -/
structure PatientRow where
  patient_id : Nat
  age : Option Nat
deriving DecidableEq, Repr

/-- Row of `appointments` (only the columns the verified code reads). -/
structure AppointmentRow where
  appointment_id : Nat
  patient_id : Nat
  doctor_id : Nat
deriving DecidableEq, Repr

/-- Row of `prescriptions`.  `side_effects TEXT` is nullable,
`reported_allergy BOOLEAN DEFAULT FALSE`. -/
structure PrescriptionRow where
  prescription_id : Nat
  appointment_id : Nat
  medicine_name : String
  dosage : String
  created_at : Int
  reported_allergy : Bool
  side_effects : Option String
deriving DecidableEq, Repr

/-- Row of `disease_history`. -/
structure DiseaseRow where
  patient_id : Nat
  disease_name : String
  diagnosed_date : Int
deriving DecidableEq, Repr

/-- Row of `medicine_side_effects` (severity is one of mild/moderate/severe). -/
structure SideEffectRow where
  medicine_name : String
  side_effect : String
  severity : String
deriving DecidableEq, Repr

/-- Row of `health_risk_score`. -/
structure RiskScoreRow where
  patient_id : Nat
  risk_score : Nat
  risk_level : String
  calculated_at : Int
deriving DecidableEq, Repr

/-- The relational state the health-intelligence models read and write. -/
structure DB where
  patients : List PatientRow
  appointments : List AppointmentRow
  prescriptions : List PrescriptionRow
  disease_history : List DiseaseRow
  medicine_side_effects : List SideEffectRow
  health_risk_score : List RiskScoreRow
deriving DecidableEq, Repr

/-! ## Small relational helpers -/

/-- Keys of a grouped query, first occurrence kept (SQL `GROUP BY` produces one
row per distinct key; its order is unspecified unless sorted afterwards). -/
def dedupFirst {κ : Type} [DecidableEq κ] : List κ → List κ
  | [] => []
  | k :: ks => k :: (dedupFirst ks).filter (fun x => decide (x ≠ k))

theorem mem_dedupFirst {κ : Type} [DecidableEq κ] {x : κ} :
    ∀ {l : List κ}, x ∈ dedupFirst l ↔ x ∈ l := by
  intro l
  induction l with
  | nil => simp [dedupFirst]
  | cons k ks ih =>
    simp only [dedupFirst, List.mem_cons, List.mem_filter, decide_eq_true_eq]
    constructor
    · rintro (rfl | ⟨hx, _⟩)
      · exact Or.inl rfl
      · exact Or.inr (ih.mp hx)
    · rintro (rfl | hx)
      · exact Or.inl rfl
      · by_cases hxk : x = k
        · exact Or.inl hxk
        · exact Or.inr ⟨ih.mpr hx, hxk⟩

theorem nodup_dedupFirst {κ : Type} [DecidableEq κ] :
    ∀ (l : List κ), (dedupFirst l).Nodup
  | [] => List.nodup_nil
  | k :: ks => by
    simp only [dedupFirst, List.nodup_cons]
    refine ⟨fun hk => ?_, (nodup_dedupFirst ks).filter _⟩
    exact (by simpa using (List.mem_filter.mp hk).2 : k ≠ k) rfl

/-- SQL `MIN` over a list of dates (0 only for the empty aggregate, which the
grouped queries never produce). -/
def minDate : List Int → Int
  | [] => 0
  | d :: ds => ds.foldl min d

/-- SQL `MAX` over a list of dates. -/
def maxDate : List Int → Int
  | [] => 0
  | d :: ds => ds.foldl max d

/-! ## Disease pattern detector (`detectDiseasePatterns`) -/

/-- Rows selected by `WHERE patient_id = $1 AND diagnosed_date >= CURRENT_DATE
- INTERVAL '6 months'`; `cutoff` stands for the date six months before today. -/
def diseaseRowsInWindow (db : DB) (pid : Nat) (cutoff : Int) : List DiseaseRow :=
  db.disease_history.filter
    (fun r => decide (r.patient_id = pid ∧ cutoff ≤ r.diagnosed_date))

/-- One output row of the grouped disease query. -/
structure DiseaseGroupRow where
  disease_name : String
  frequency : Nat
  first_occurrence : Int
  last_occurrence : Int
deriving DecidableEq, Repr

/-- One group of the disease query: `COUNT(*)`, `MIN(diagnosed_date)` and
`MAX(diagnosed_date)` over the rows carrying one disease name. -/
def diseaseGroupFor (rows : List DiseaseRow) (n : String) : DiseaseGroupRow :=
  let ds := (rows.filter (fun r => decide (r.disease_name = n))).map (·.diagnosed_date)
  { disease_name := n
    frequency := ds.length
    first_occurrence := minDate ds
    last_occurrence := maxDate ds }

/-- The grouped query of `detectDiseasePatterns`: `GROUP BY disease_name` with
the aggregates of `diseaseGroupFor`, then `ORDER BY frequency DESC`. -/
def diseaseQuery (db : DB) (pid : Nat) (cutoff : Int) : List DiseaseGroupRow :=
  let rows := diseaseRowsInWindow db pid cutoff
  List.insertionSort (fun a b => b.frequency ≤ a.frequency)
    ((dedupFirst (rows.map (·.disease_name))).map (diseaseGroupFor rows))

/-- One element of the array `detectDiseasePatterns` resolves with. -/
structure DiseasePattern where
  disease_name : String
  frequency : Nat
  first_occurrence : Int
  last_occurrence : Int
  is_chronic : Bool
  risk_assessment : String
deriving DecidableEq, Repr

/-- The `rows.map` body of `detectDiseasePatterns`. -/
def classifyDisease (g : DiseaseGroupRow) : DiseasePattern :=
  { disease_name := g.disease_name
    frequency := g.frequency
    first_occurrence := g.first_occurrence
    last_occurrence := g.last_occurrence
    is_chronic := decide (3 ≤ g.frequency)
    risk_assessment :=
      if 3 ≤ g.frequency then
        "Possible chronic condition - recommend specialist consultation"
      else if g.frequency = 2 then
        "Recurring pattern detected - monitor closely"
      else
        "Single occurrence - standard monitoring" }

/-- Body of `detectDiseasePatterns` over the outcome of its one query: the
`catch` clause turns any data-access fault into `[]`. -/
def detectDiseasePatternsCore (q : Except Unit (List DiseaseGroupRow)) :
    List DiseasePattern :=
  match q with
  | .error _ => []
  | .ok rows => rows.map classifyDisease

/-- The function `detectDiseasePatterns(patient_id)` run against database
state `db`, with all queries succeeding. -/
def detectDiseasePatterns (db : DB) (pid : Nat) (cutoff : Int) :
    List DiseasePattern :=
  detectDiseasePatternsCore (.ok (diseaseQuery db pid cutoff))

/-! ## Allergy / side-effect risk detector (`detectAllergyRisks`) -/

/-- The join `prescriptions pr JOIN appointments a ON pr.appointment_id =
a.appointment_id WHERE a.patient_id = $1` (the medicine model writes this as a
LEFT JOIN, but the WHERE clause on `a.patient_id` discards unmatched rows, so
the result is the same inner join). -/
def prescriptionAppointmentRows (db : DB) (pid : Nat) :
    List (PrescriptionRow × AppointmentRow) :=
  db.prescriptions.flatMap (fun p =>
    (db.appointments.filter (fun a =>
      decide (a.appointment_id = p.appointment_id ∧ a.patient_id = pid))).map
    (fun a => (p, a)))

/-- One output row of the grouped prescription-risk query (`GROUP BY
medicine_name, dosage`).  `reported_side_effects` holds the distinct non-null
side-effect texts; the empty list stands for the SQL `NULL` aggregate. -/
structure AllergyGroupRow where
  medicine_name : String
  dosage : String
  times_prescribed : Nat
  allergy_reports : Nat
  reported_side_effects : List String
deriving DecidableEq, Repr

/-- One group of the prescription-risk query: the aggregates over the
patient's prescriptions carrying one (medicine, dosage) key. -/
def allergyGroupFor (ps : List PrescriptionRow) (k : String × String) :
    AllergyGroupRow :=
  let grp := ps.filter (fun p => decide (p.medicine_name = k.1 ∧ p.dosage = k.2))
  { medicine_name := k.1
    dosage := k.2
    times_prescribed := grp.length
    allergy_reports := (grp.filter (fun p => p.reported_allergy)).length
    reported_side_effects := dedupFirst (grp.filterMap (·.side_effects)) }

/-- The first query of `detectAllergyRisks`: grouped per (medicine, dosage)
with `HAVING SUM(reported_allergy) > 0 OR COUNT(*) >= 4`. -/
def allergyRiskQuery (db : DB) (pid : Nat) : List AllergyGroupRow :=
  let ps := (prescriptionAppointmentRows db pid).map (·.1)
  ((dedupFirst (ps.map (fun p => (p.medicine_name, p.dosage)))).map
    (allergyGroupFor ps)).filter
    (fun g => decide (0 < g.allergy_reports ∨ 4 ≤ g.times_prescribed))

/-- One element of the returned `prescriptionRisks` array. -/
structure PrescriptionRisk where
  medicine_name : String
  dosage : String
  times_prescribed : Nat
  allergy_reports : Nat
  reported_side_effects : List String
  risk_level : String
  action : String
deriving DecidableEq, Repr

/-- The `prescriptionRisks.map` body of `detectAllergyRisks`. -/
def classifyPrescriptionRisk (g : AllergyGroupRow) : PrescriptionRisk :=
  { medicine_name := g.medicine_name
    dosage := g.dosage
    times_prescribed := g.times_prescribed
    allergy_reports := g.allergy_reports
    reported_side_effects := g.reported_side_effects
    risk_level := if 0 < g.allergy_reports then "ALLERGY_ALERT" else "FREQUENCY_WARNING"
    action :=
      if 0 < g.allergy_reports then
        "⚠️ ALLERGY RISK: " ++ g.medicine_name ++ " has " ++
          toString g.allergy_reports ++ " allergy report(s)"
      else
        "⚠️ HIGH FREQUENCY: " ++ g.medicine_name ++ " prescribed " ++
          toString g.times_prescribed ++ " times" }

/-- One row of the known-side-effects query (`SELECT DISTINCT`). -/
structure KnownSideEffect where
  medicine_name : String
  side_effect : String
  severity : String
deriving DecidableEq, Repr

/-- The second query of `detectAllergyRisks`: the patient's prescriptions
joined with the static catalog, distinct triples, `ORDER BY severity DESC`
(text order, which on mild/moderate/severe coincides with severity order). -/
def knownSideEffectsQuery (db : DB) (pid : Nat) : List KnownSideEffect :=
  let triples := (prescriptionAppointmentRows db pid).flatMap (fun pa =>
    (db.medicine_side_effects.filter (fun m =>
      decide (m.medicine_name = pa.1.medicine_name))).map
    (fun m => { medicine_name := pa.1.medicine_name
                side_effect := m.side_effect
                severity := m.severity }))
  List.insertionSort (fun a b => b.severity ≤ a.severity) (dedupFirst triples)

/-- One element of the returned `knownSideEffects` array. -/
structure SideEffectAlert where
  medicine_name : String
  side_effect : String
  severity : String
  alert_level : String
deriving DecidableEq, Repr

/-- The `knownSideEffects.map` body of `detectAllergyRisks`. -/
def classifySideEffect (e : KnownSideEffect) : SideEffectAlert :=
  { medicine_name := e.medicine_name
    side_effect := e.side_effect
    severity := e.severity
    alert_level :=
      if e.severity = "severe" then "CRITICAL"
      else if e.severity = "moderate" then "WARNING"
      else "INFO" }

/-- The record `detectAllergyRisks` resolves with. -/
structure AllergyRisks where
  prescriptionRisks : List PrescriptionRisk
  knownSideEffects : List SideEffectAlert
deriving DecidableEq, Repr

/-- Body of `detectAllergyRisks` over the outcomes of its two sequential
queries: a fault in either one reaches the `catch`, which returns both lists
empty. -/
def detectAllergyRisksCore (q1 : Except Unit (List AllergyGroupRow))
    (q2 : Except Unit (List KnownSideEffect)) : AllergyRisks :=
  match (do
      let risks ← q1
      let effects ← q2
      Except.ok (risks, effects) : Except Unit _) with
  | .error _ => { prescriptionRisks := [], knownSideEffects := [] }
  | .ok (risks, effects) =>
    { prescriptionRisks := risks.map classifyPrescriptionRisk
      knownSideEffects := effects.map classifySideEffect }

/-- The function `detectAllergyRisks(patient_id)` run against `db`, with all
queries succeeding. -/
def detectAllergyRisks (db : DB) (pid : Nat) : AllergyRisks :=
  detectAllergyRisksCore (.ok (allergyRiskQuery db pid))
    (.ok (knownSideEffectsQuery db pid))

/-! ## Medicine repetition detector (`detectMedicineRepetition`) -/

/-- The joined rows of the medicine-repetition query: each prescription of the
patient is paired with every `disease_history` row of the patient
(`LEFT JOIN disease_history d ON a.patient_id = d.patient_id`), or with `none`
when the patient has no disease rows at all. -/
def medicineJoinRows (db : DB) (pid : Nat) :
    List (PrescriptionRow × Option DiseaseRow) :=
  (prescriptionAppointmentRows db pid).flatMap (fun pa =>
    match db.disease_history.filter (fun d =>
        decide (d.patient_id = pa.2.patient_id)) with
    | [] => [(pa.1, none)]
    | ds => ds.map (fun d => (pa.1, some d)))

/-- One output row of the grouped medicine query.  `prescription_count` is
`COUNT(*)` over the joined rows, and `associated_diseases` is
`STRING_AGG(DISTINCT d.disease_name, ', ')` (`none` for the SQL `NULL`). -/
structure MedicineGroupRow where
  medicine_name : String
  prescription_count : Nat
  associated_diseases : Option String
  last_prescribed : Int
deriving DecidableEq, Repr

/-- One group of the medicine-repetition query: `COUNT(*)`,
`STRING_AGG(DISTINCT disease_name)` and `MAX(created_at)` over the joined
rows carrying one medicine name. -/
def medicineGroupFor (rows : List (PrescriptionRow × Option DiseaseRow))
    (n : String) : MedicineGroupRow :=
  let grp := rows.filter (fun r => decide (r.1.medicine_name = n))
  let diseases := dedupFirst (grp.filterMap (fun r => r.2.map (·.disease_name)))
  { medicine_name := n
    prescription_count := grp.length
    associated_diseases :=
      if diseases.isEmpty then none else some (String.intercalate ", " diseases)
    last_prescribed := maxDate (grp.map (fun r => r.1.created_at)) }

/-- The query of `detectMedicineRepetition`: `GROUP BY medicine_name`,
`HAVING COUNT(*) > 2`, `ORDER BY prescription_count DESC`. -/
def medicineQuery (db : DB) (pid : Nat) : List MedicineGroupRow :=
  let rows := medicineJoinRows db pid
  List.insertionSort (fun a b => b.prescription_count ≤ a.prescription_count)
    (((dedupFirst (rows.map (fun r => r.1.medicine_name))).map
      (medicineGroupFor rows)).filter
      (fun g => decide (2 < g.prescription_count)))

/-- One element of the array `detectMedicineRepetition` resolves with. -/
structure MedicineRepetition where
  medicine_name : String
  prescription_count : Nat
  associated_diseases : Option String
  last_prescribed : Int
  risk_level : String
  warning : String
deriving DecidableEq, Repr

/-- The `result.rows.map` body of `detectMedicineRepetition`. -/
def classifyMedicine (g : MedicineGroupRow) : MedicineRepetition :=
  { medicine_name := g.medicine_name
    prescription_count := g.prescription_count
    associated_diseases := g.associated_diseases
    last_prescribed := g.last_prescribed
    risk_level := if 4 < g.prescription_count then "high" else "moderate"
    warning :=
      if 4 < g.prescription_count then
        g.medicine_name ++ " prescribed " ++ toString g.prescription_count ++
          " times – risk of dependency."
      else
        g.medicine_name ++ " prescribed " ++ toString g.prescription_count ++
          " times – monitor usage." }

/-- Body of `detectMedicineRepetition` over the outcome of its query: the
`catch` clause turns any data-access fault into `[]`. -/
def detectMedicineRepetitionCore (q : Except Unit (List MedicineGroupRow)) :
    List MedicineRepetition :=
  match q with
  | .error _ => []
  | .ok rows => rows.map classifyMedicine

/-- The function `detectMedicineRepetition(patientId)` run against `db`, with
all queries succeeding. -/
def detectMedicineRepetition (db : DB) (pid : Nat) : List MedicineRepetition :=
  detectMedicineRepetitionCore (.ok (medicineQuery db pid))

/-- How many times a medicine was actually prescribed to the patient — the
quantity the specification calls `prescription_count`. -/
def prescriptionsOfMedicine (db : DB) (pid : Nat) (med : String) : Nat :=
  ((prescriptionAppointmentRows db pid).filter (fun pa =>
    decide (pa.1.medicine_name = med))).length

/-! ## Risk score aggregator (`calculateHealthRiskScore`) -/

/-- Rows of the age lookup `SELECT age FROM patients WHERE patient_id = $1`. -/
def ageQuery (db : DB) (pid : Nat) : List (Option Nat) :=
  (db.patients.filter (fun p => decide (p.patient_id = pid))).map (·.age)

/-- JavaScript `patientData[0]?.age || 30`: a missing row, a SQL `NULL` and an
age of 0 (falsy) all fall back to 30. -/
def effectiveAge (ages : List (Option Nat)) : Nat :=
  match ages.head? with
  | none => 30
  | some none => 30
  | some (some a) => if a = 0 then 30 else a

/-- Row of the medicine-frequency query (prescriptions of the last 2 months;
`cutoff2m` stands for the date two months before today). -/
structure MedFreqRow where
  total_prescriptions : Nat
  unique_medicines : Nat
deriving DecidableEq, Repr

/-- The medicine-frequency query of `calculateHealthRiskScore`. -/
def medFreqQuery (db : DB) (pid : Nat) (cutoff2m : Int) : MedFreqRow :=
  let ps := ((prescriptionAppointmentRows db pid).map (·.1)).filter
    (fun p => decide (cutoff2m ≤ p.created_at))
  { total_prescriptions := ps.length
    unique_medicines := (dedupFirst (ps.map (·.medicine_name))).length }

/-- Row of the disease-frequency query (6-month window). -/
structure DisFreqRow where
  total_diseases : Nat
  unique_diseases : Nat
  max_single_disease : Nat
deriving DecidableEq, Repr

/-- The disease-frequency query of `calculateHealthRiskScore`:
`max_single_disease` is the largest per-disease count in the window
(`COALESCE(..., 0)` when there are no rows). -/
def disFreqQuery (db : DB) (pid : Nat) (cutoff6m : Int) : DisFreqRow :=
  let rows := diseaseRowsInWindow db pid cutoff6m
  let counts := (dedupFirst (rows.map (·.disease_name))).map
    (fun n => (rows.filter (fun r => decide (r.disease_name = n))).length)
  { total_diseases := rows.length
    unique_diseases := counts.length
    max_single_disease := counts.foldl max 0 }

/-- The allergy-incident count query: prescriptions of the patient with
`reported_allergy = true`. -/
def allergyIncidentsQuery (db : DB) (pid : Nat) : Nat :=
  ((prescriptionAppointmentRows db pid).filter (fun pa =>
    pa.1.reported_allergy)).length

/-- Factor 1: `Math.min(15, Math.floor((age / 80) * 15))`, as an exact
rational floor (the JavaScript double arithmetic agrees on demographic ages). -/
def ageFactor (age : Nat) : Nat := min 15 (age * 15 / 80)

/-- Factor 2: `Math.min(30, Math.floor((totalPrescriptions / 10) * 30))`. -/
def medicineFactor (totalPrescriptions : Nat) : Nat :=
  min 30 (totalPrescriptions * 30 / 10)

/-- Factor 3: `Math.min(25, Math.floor((totalDiseases / 8) * 25))`. -/
def diseaseFactor (totalDiseases : Nat) : Nat := min 25 (totalDiseases * 25 / 8)

/-- Factor 4: `Math.min(20, allergyIncidents * 5)`. -/
def allergyFactor (incidents : Nat) : Nat := min 20 (incidents * 5)

/-- The risk-level chain of `calculateHealthRiskScore` (initial value `low`,
then the `>= 80 / >= 60 / >= 40 / >= 20` branches). -/
def riskLevelOf (finalScore : Nat) : String :=
  if 80 ≤ finalScore then "critical"
  else if 60 ≤ finalScore then "high"
  else if 40 ≤ finalScore then "moderate"
  else "low"

/-- The risk-description chain of `calculateHealthRiskScore`; below 20 the
initial, more positive, description survives. -/
def riskDescriptionOf (finalScore : Nat) : String :=
  if 80 ≤ finalScore then "🔴 CRITICAL: Immediate medical attention recommended"
  else if 60 ≤ finalScore then "🟡 HIGH RISK: Schedule specialist consultation"
  else if 40 ≤ finalScore then "🟠 MODERATE: Monitor health patterns closely"
  else if 20 ≤ finalScore then "🟢 LOW RISK: Continue regular check-ups"
  else "✅ Your health is in good condition"

/-- The `breakdown` record of the returned score object. -/
structure ScoreBreakdown where
  age_factor : Nat
  medicine_factor : Nat
  disease_factor : Nat
  allergy_factor : Nat
  chronic_bonus : Nat
deriving DecidableEq, Repr

/-- The object `calculateHealthRiskScore` resolves with.  `factors` lists the
numeric factor entries in insertion order (the `summary` entry is the
description string and is kept in `description`); the fail-open `catch` path
returns the empty factor object and no breakdown. -/
structure ScoreOutcome where
  score : Nat
  level : String
  description : String
  factors : List (String × Nat)
  breakdown : Option ScoreBreakdown
deriving DecidableEq, Repr

/-- The pure scoring computation of `calculateHealthRiskScore` (source lines
between the four reads and the save): capped factors, chronic bonus, final
`Math.min(100, score)` clamp, level and description. -/
def computeHealthRiskScore (age totalPrescriptions totalDiseases
    maxSingleDisease allergyIncidents : Nat) : ScoreOutcome :=
  let aF := ageFactor age
  let mF := medicineFactor totalPrescriptions
  let dF := diseaseFactor totalDiseases
  let chronic := if 3 ≤ maxSingleDisease then 10 else 0
  let alF := allergyFactor allergyIncidents
  let finalScore := min 100 (aF + mF + dF + chronic + alF)
  { score := finalScore
    level := riskLevelOf finalScore
    description := riskDescriptionOf finalScore
    factors :=
      [("age_factor", aF), ("medicine_factor", mF)] ++
        (if 3 ≤ maxSingleDisease then [("chronic_condition", 10)] else []) ++
        [("disease_factor", dF), ("allergy_factor", alF)]
    breakdown := some
      { age_factor := aF, medicine_factor := mF, disease_factor := dF
        allergy_factor := alF, chronic_bonus := chronic } }

/-- The fail-open result of `calculateHealthRiskScore`'s `catch` clause. -/
def riskScoreFallback : ScoreOutcome :=
  { score := 0, level := "unknown", description := "Unable to calculate risk score"
    factors := [], breakdown := none }

/-- Outcome of the persistence statement `INSERT INTO health_risk_score ...
ON CONFLICT (patient_id, calculated_at::DATE) DO UPDATE SET ...`.  PostgreSQL's
conflict-target grammar — `( { index_column_name | ( index_expression ) } ...`,
the same `index_elem` production as CREATE INDEX — requires a non-column
expression to carry its own parentheses, so the unparenthesized
`calculated_at::DATE` makes the whole statement a syntax error: every
execution is rejected at parse time and no row is ever inserted or updated. -/
def saveRiskScoreStatement : Except Unit Unit := .error ()

/-- Body of `calculateHealthRiskScore` over the outcomes of its four reads and
of the save statement, with the `catch` clause producing the fallback. -/
def calculateHealthRiskScoreCore (qAge : Except Unit (List (Option Nat)))
    (qMed : Except Unit MedFreqRow) (qDis : Except Unit DisFreqRow)
    (qAllergy : Except Unit Nat) (qSave : Except Unit Unit) : ScoreOutcome :=
  match (do
      let ages ← qAge
      let mf ← qMed
      let df ← qDis
      let ai ← qAllergy
      let r := computeHealthRiskScore (effectiveAge ages) mf.total_prescriptions
        df.total_diseases df.max_single_disease ai
      let _ ← qSave
      Except.ok r : Except Unit ScoreOutcome) with
  | .ok r => r
  | .error _ => riskScoreFallback

/-- The function `calculateHealthRiskScore(patient_id)` run against `db`: the
four reads succeed, the save statement fails (`saveRiskScoreStatement`), so
the fallback is returned and the stored table is left unchanged.  The second
component is the database state after the call. -/
def calculateHealthRiskScore (db : DB) (pid : Nat) (cutoff2m cutoff6m : Int) :
    ScoreOutcome × DB :=
  (calculateHealthRiskScoreCore (.ok (ageQuery db pid))
    (.ok (medFreqQuery db pid cutoff2m)) (.ok (disFreqQuery db pid cutoff6m))
    (.ok (allergyIncidentsQuery db pid)) saveRiskScoreStatement,
   db)

/-- The upsert that the unique index `idx_health_risk_per_day` (created "for
one score per patient per day") and the `ON CONFLICT ... DO UPDATE` clause
intend: replace the (patient, calendar-day) row if present, insert otherwise.
`calculated_at` is modelled at day granularity, matching
`DATE(calculated_at)`. -/
def upsertRiskScoreIntended (db : DB) (pid score : Nat) (level : String)
    (today : Int) : DB :=
  { db with health_risk_score :=
      (db.health_risk_score.filter (fun r =>
        decide (¬(r.patient_id = pid ∧ r.calculated_at = today)))) ++
      [{ patient_id := pid, risk_score := score, risk_level := level
         calculated_at := today }] }

/-- Number of persisted `health_risk_score` rows for a (patient, day). -/
def riskRowsFor (db : DB) (pid : Nat) (day : Int) : Nat :=
  (db.health_risk_score.filter (fun r =>
    decide (r.patient_id = pid ∧ r.calculated_at = day))).length

/-! ## Enhanced risk scorer (`calculateEnhancedHealthRiskScore`) -/

/-- One entry of the enhanced scorer's `factors` array. -/
structure EnhancedFactor where
  name : String
  value : Nat
  points : Nat
deriving DecidableEq, Repr

/-- The object `calculateEnhancedHealthRiskScore` resolves with (the fields
the claims mention). -/
structure EnhancedScore where
  score : Nat
  level : String
  factors : List EnhancedFactor
deriving DecidableEq, Repr

/-- The enhanced scorer's level chain: `>= 75 / >= 50 / >= 25`, else low. -/
def enhancedLevelOf (score : Nat) : String :=
  if 75 ≤ score then "critical"
  else if 50 ≤ score then "high"
  else if 25 ≤ score then "moderate"
  else "low"

/-- The repeated-disease query of the enhanced scorer: distinct diseases
diagnosed at least 3 times for the patient, over all time (no window). -/
def repeatedDiseasesCount (db : DB) (pid : Nat) : Nat :=
  let rows := db.disease_history.filter (fun r => decide (r.patient_id = pid))
  ((dedupFirst (rows.map (·.disease_name))).filter (fun n =>
    decide (3 ≤ (rows.filter (fun r => decide (r.disease_name = n))).length))).length

/-- The `COUNT(DISTINCT doctor_id)` query of the enhanced scorer. -/
def distinctDoctorCount (db : DB) (pid : Nat) : Nat :=
  (dedupFirst ((db.appointments.filter (fun a =>
    decide (a.patient_id = pid))).map (·.doctor_id))).length

/-- `getMedicineUsageStats(patientId).total_prescriptions`. -/
def totalPrescriptionsAllTime (db : DB) (pid : Nat) : Nat :=
  (prescriptionAppointmentRows db pid).length

/-- The function `calculateEnhancedHealthRiskScore(patientId)` run against
`db`, with all queries succeeding.  A missing patient returns score 0, level
`unknown` and no factors before any scoring happens. -/
def calculateEnhancedHealthRiskScore (db : DB) (pid : Nat) : EnhancedScore :=
  match db.patients.filter (fun p => decide (p.patient_id = pid)) with
  | [] => { score := 0, level := "unknown", factors := [] }
  | p :: _ =>
    let age := p.age.getD 0
    let f1 : List EnhancedFactor :=
      if 50 < age then [⟨"Age Factor", age, 10⟩] else []
    let repeated := repeatedDiseasesCount db pid
    let f2 : List EnhancedFactor :=
      if 0 < repeated then [⟨"Repeated Diseases", repeated, 20⟩] else []
    let highRisk := ((detectMedicineRepetition db pid).filter (fun m =>
      decide (4 < m.prescription_count))).length
    let f3 : List EnhancedFactor :=
      if 0 < highRisk then [⟨"Repeated Medicines", highRisk, 20⟩] else []
    let doctors := distinctDoctorCount db pid
    let f4 : List EnhancedFactor :=
      if 2 < doctors then [⟨"Multiple Doctors", doctors, 10⟩] else []
    let f5 : List EnhancedFactor :=
      if 2 < repeated then [⟨"Chronic Conditions", repeated, 15⟩] else []
    let totalRx := totalPrescriptionsAllTime db pid
    let f6 : List EnhancedFactor :=
      if 10 < totalRx then [⟨"High Medicine Usage", totalRx, 15⟩] else []
    let factors := f1 ++ f2 ++ f3 ++ f4 ++ f5 ++ f6
    let score := min ((factors.map (·.points)).sum) 100
    { score := score, level := enhancedLevelOf score, factors := factors }

/-! ## Chat model (`sendMessage`) -/

/-- Row of the `messages` table (the columns `sendMessage` inserts). -/
structure MessageRow where
  appointment_id : Nat
  sender_id : Nat
  sender_role : String
  message : String
deriving DecidableEq, Repr

/-- The state the chat model reads and writes. -/
structure ChatState where
  appointments : List AppointmentRow
  messages : List MessageRow
deriving DecidableEq, Repr

/-- The function `sendMessage(appointmentId, senderId, senderRole, message)`:
fetch the appointment, verify the sender belongs to it, then insert the row.
Both the `Appointment not found` and the `Unauthorized` errors are rethrown by
the `catch` clause, so they reach the caller. -/
def sendMessage (st : ChatState) (appointmentId senderId : Nat)
    (senderRole messageText : String) : Except String (ChatState × MessageRow) :=
  match st.appointments.find? (fun a =>
      decide (a.appointment_id = appointmentId)) with
  | none => .error "Appointment not found"
  | some appt =>
    if (senderRole = "patient" ∧ appt.patient_id = senderId) ∨
        (senderRole = "doctor" ∧ appt.doctor_id = senderId) then
      let m : MessageRow := ⟨appointmentId, senderId, senderRole, messageText⟩
      .ok ({ st with messages := st.messages ++ [m] }, m)
    else
      .error "Unauthorized: sender not part of this appointment"

/-- The chat state as the caller observes it after a send attempt: the new
state on success, the old state when the call threw. -/
def chatStateAfterSend (st : ChatState) (aid sid : Nat)
    (role msg : String) : ChatState :=
  match sendMessage st aid sid role msg with
  | .ok (st', _) => st'
  | .error _ => st

/-! ## JSON values and the serialization boundary

The cache layer stores values through `JSON.stringify` / `JSON.parse`.  Both
are modelled here over an explicit JSON value type (numbers restricted to
integers — the cached payloads hold counts and identifiers — and whitespace
not modelled, since the serializer emits none). -/

/-- A JavaScript value the cache can hold. -/
inductive JVal where
  | null : JVal
  | bool : Bool → JVal
  | num : Int → JVal
  | str : String → JVal
  | arr : List JVal → JVal
  | obj : List (String × JVal) → JVal

/-- Hexadecimal digit character (lowercase, as `JSON.stringify` emits). -/
def hexDigitChar (n : Nat) : Char :=
  if n < 10 then Char.ofNat ('0'.toNat + n) else Char.ofNat ('a'.toNat + n - 10)

/-- Serialization of one string character: `JSON.stringify` escapes the
quote, the backslash, the named control characters and all other control
characters (as `\u00XX`). -/
def escapeChar (c : Char) : List Char :=
  if c = '"' then ['\\', '"']
  else if c = '\\' then ['\\', '\\']
  else if c = '\x08' then ['\\', 'b']
  else if c = '\x0c' then ['\\', 'f']
  else if c = '\n' then ['\\', 'n']
  else if c = '\r' then ['\\', 'r']
  else if c = '\t' then ['\\', 't']
  else if c.toNat < 32 then
    ['\\', 'u', '0', '0', hexDigitChar (c.toNat / 16), hexDigitChar (c.toNat % 16)]
  else [c]

/-- Serialized string body, without the surrounding quotes. -/
def escBody (l : List Char) : List Char := l.flatMap escapeChar

/-- Serialized string, quotes included. -/
def escapeString (s : String) : List Char := '"' :: escBody s.data ++ ['"']

/-- Decimal digits of a natural number. -/
def natToDigits (n : Nat) : List Char :=
  if n < 10 then [Char.ofNat ('0'.toNat + n)]
  else natToDigits (n / 10) ++ [Char.ofNat ('0'.toNat + n % 10)]
termination_by n
decreasing_by exact Nat.div_lt_self (by omega) (by omega)

/-- Decimal representation of an integer. -/
def intToDigits (i : Int) : List Char :=
  if i < 0 then '-' :: natToDigits i.natAbs else natToDigits i.toNat

mutual

/-- The model of the `JSON.stringify` serialization of a value. -/
def stringifyV : JVal → List Char
  | .null => ("null").data
  | .bool true => ("true").data
  | .bool false => ("false").data
  | .num i => intToDigits i
  | .str s => escapeString s
  | .arr xs => '[' :: stringifyItems xs ++ [']']
  | .obj fs => '\x7b' :: stringifyFields fs ++ ['\x7d']

/-- Comma-separated serialized array elements. -/
def stringifyItems : List JVal → List Char
  | [] => []
  | [x] => stringifyV x
  | x :: y :: t => stringifyV x ++ ',' :: stringifyItems (y :: t)

/-- Comma-separated serialized `key:value` members. -/
def stringifyFields : List (String × JVal) → List Char
  | [] => []
  | [(k, v)] => escapeString k ++ ':' :: stringifyV v
  | (k, v) :: f :: t =>
    escapeString k ++ ':' :: stringifyV v ++ ',' :: stringifyFields (f :: t)

end

/-- Value of a hexadecimal digit character. -/
def parseHexDigit (c : Char) : Option Nat :=
  if '0' ≤ c ∧ c ≤ '9' then some (c.toNat - '0'.toNat)
  else if 'a' ≤ c ∧ c ≤ 'f' then some (c.toNat - 'a'.toNat + 10)
  else if 'A' ≤ c ∧ c ≤ 'F' then some (c.toNat - 'A'.toNat + 10)
  else none

/-- The named escape sequences of JSON string syntax. -/
def namedEscape (e : Char) : Option Char :=
  if e = '"' then some '"'
  else if e = '\\' then some '\\'
  else if e = '/' then some '/'
  else if e = 'b' then some '\x08'
  else if e = 'f' then some '\x0c'
  else if e = 'n' then some '\n'
  else if e = 'r' then some '\r'
  else if e = 't' then some '\t'
  else none

/-- Parser for a string body up to and including the closing quote. -/
def parseStringBody : List Char → Option (List Char × List Char)
  | [] => none
  | c :: rest =>
    if c = '"' then some ([], rest)
    else if c = '\\' then
      match rest with
      | [] => none
      | e :: r =>
        if e = 'u' then
          match r with
          | h1 :: h2 :: h3 :: h4 :: r2 =>
            match parseHexDigit h1, parseHexDigit h2,
                parseHexDigit h3, parseHexDigit h4 with
            | some a, some b, some c3, some d =>
              (parseStringBody r2).map (fun p =>
                (Char.ofNat (((a * 16 + b) * 16 + c3) * 16 + d) :: p.1, p.2))
            | _, _, _, _ => none
          | _ => none
        else
          match namedEscape e with
          | some ch => (parseStringBody r).map (fun p => (ch :: p.1, p.2))
          | none => none
    else (parseStringBody rest).map (fun p => (c :: p.1, p.2))

/-- Decimal digit test. -/
def isDigitChar (c : Char) : Bool := decide ('0' ≤ c ∧ c ≤ '9')

/-- Numeric value of a digit character. -/
def digitVal (c : Char) : Nat := c.toNat - '0'.toNat

/-- Consume a maximal run of digits, folding them onto `acc`. -/
def parseDigits : List Char → Nat → Nat × List Char
  | [], acc => (acc, [])
  | c :: rest, acc =>
    if isDigitChar c then parseDigits rest (acc * 10 + digitVal c)
    else (acc, c :: rest)

/-- Parser for an (optionally negated) integer numeral. -/
def parseNumber (l : List Char) : Option (Int × List Char) :=
  match l with
  | [] => none
  | c :: rest =>
    if c = '-' then
      match rest with
      | [] => none
      | c2 :: _ =>
        if isDigitChar c2 then
          let p := parseDigits rest 0
          some (-(p.1 : Int), p.2)
        else none
    else if isDigitChar c then
      let p := parseDigits l 0
      some ((p.1 : Int), p.2)
    else none

mutual

/-- Fueled parser for one JSON value (the fuel only bounds nesting; the
top-level wrapper supplies enough for any input). -/
def parseVal : Nat → List Char → Option (JVal × List Char)
  | 0, _ => none
  | fuel + 1, input =>
    match input with
    | [] => none
    | c :: rest =>
      if c = 'n' then
        match rest with
        | 'u' :: 'l' :: 'l' :: r => some (.null, r)
        | _ => none
      else if c = 't' then
        match rest with
        | 'r' :: 'u' :: 'e' :: r => some (.bool true, r)
        | _ => none
      else if c = 'f' then
        match rest with
        | 'a' :: 'l' :: 's' :: 'e' :: r => some (.bool false, r)
        | _ => none
      else if c = '"' then
        (parseStringBody rest).map (fun p => (.str (String.mk p.1), p.2))
      else if c = '[' then
        match rest with
        | [] => none
        | c2 :: r =>
          if c2 = ']' then some (.arr [], r)
          else (parseItems fuel (c2 :: r)).map (fun p => (.arr p.1, p.2))
      else if c = '\x7b' then
        match rest with
        | [] => none
        | c2 :: r =>
          if c2 = '\x7d' then some (.obj [], r)
          else (parseFields fuel (c2 :: r)).map (fun p => (.obj p.1, p.2))
      else (parseNumber (c :: rest)).map (fun p => (.num p.1, p.2))

/-- One or more comma-separated array elements, up to and including `]`. -/
def parseItems : Nat → List Char → Option (List JVal × List Char)
  | 0, _ => none
  | fuel + 1, input =>
    match parseVal fuel input with
    | none => none
    | some (v, rest) =>
      match rest with
      | [] => none
      | c :: r =>
        if c = ',' then (parseItems fuel r).map (fun p => (v :: p.1, p.2))
        else if c = ']' then some ([v], r)
        else none

/-- One or more comma-separated object members, up to and including the
closing brace. -/
def parseFields : Nat → List Char → Option (List (String × JVal) × List Char)
  | 0, _ => none
  | fuel + 1, input =>
    match input with
    | [] => none
    | c :: rest =>
      if c = '"' then
        match parseStringBody rest with
        | none => none
        | some (k, r1) =>
          match r1 with
          | [] => none
          | c2 :: r2 =>
            if c2 = ':' then
              match parseVal fuel r2 with
              | none => none
              | some (v, r3) =>
                match r3 with
                | [] => none
                | c3 :: r4 =>
                  if c3 = ',' then
                    (parseFields fuel r4).map (fun p =>
                      ((String.mk k, v) :: p.1, p.2))
                  else if c3 = '\x7d' then some ([(String.mk k, v)], r4)
                  else none
            else none
      else none

end

/-- The model of `JSON.stringify` on a serializable value. -/
def jsonStringify (v : JVal) : String := String.mk (stringifyV v)

/-- The model of `JSON.parse`: succeeds exactly when the whole input is one
JSON value, `none` standing for the exception `JSON.parse` throws. -/
def jsonParse (s : String) : Option JVal :=
  match parseVal (s.data.length + 1) s.data with
  | some (v, []) => some v
  | _ => none

/-! ## Cache layer (`utils/cache.js` over the Redis client) -/

/-- A stored Redis entry: the value string and an optional absolute expiry
instant (seconds). -/
structure RedisEntry where
  value : String
  expiresAt : Option Nat
deriving DecidableEq, Repr

/-- The Redis key/value store. -/
def RedisState : Type := List (String × RedisEntry)

/-- `redisClient.set(key, v)` or `redisClient.set(key, v, { EX: ttl })` at
time `now`: overwrite the key; with `EX` the entry expires `ttl` seconds
later. -/
def redisSet (st : RedisState) (now : Nat) (k v : String) (ex : Option Nat) :
    RedisState :=
  (k, { value := v, expiresAt := ex.map (fun ttl => now + ttl) }) ::
    st.filter (fun e => decide (e.1 ≠ k))

/-- `redisClient.get(key)` at time `now`: `nil` for a missing or expired key
(TTL expiry is enforced by the backing store). -/
def redisGet (st : RedisState) (now : Nat) (k : String) : Option String :=
  match st.find? (fun e => decide (e.1 = k)) with
  | none => none
  | some (_, e) =>
    match e.expiresAt with
    | none => some e.value
    | some t => if now < t then some e.value else none

/-- JavaScript `typeof value === 'string'`. -/
def isStringVal : JVal → Bool
  | .str _ => true
  | _ => false

/-- The claim's "structured" values: JSON objects and arrays. -/
def isStructured : JVal → Bool
  | .arr _ => true
  | .obj _ => true
  | _ => false

/-- JavaScript `typeof value === 'string' ? value : JSON.stringify(value)`:
strings are stored raw, every other value is stringified. -/
def stringValueOfJs (value : JVal) : String :=
  match value with
  | .str s => s
  | v => jsonStringify v

/-- `setCache(key, value, ttlSeconds)`: the string form of the value is
stored; a positive finite `ttlSeconds` is forwarded as `EX`, anything else
stores without expiry.  Keys carry the `cache:` namespace. -/
def setCache (st : RedisState) (now : Nat) (key : String) (value : JVal)
    (ttlSeconds : Int) : RedisState :=
  let stringValue := stringValueOfJs value
  if 0 < ttlSeconds then
    redisSet st now ("cache:" ++ key) stringValue (some ttlSeconds.toNat)
  else
    redisSet st now ("cache:" ++ key) stringValue none

/-- `getCache(key)`: `null` (here `none`) when the key is absent or expired,
otherwise `JSON.parse` of the stored string, falling back to the raw string
when parsing throws. -/
def getCache (st : RedisState) (now : Nat) (key : String) : Option JVal :=
  match redisGet st now ("cache:" ++ key) with
  | none => none
  | some s =>
    match jsonParse s with
    | some v => some v
    | none => some (.str s)

/-! ## Claim C5: risk-level thresholds of the two scorers -/

/-- C5: `calculateHealthRiskScore` derives its level and description from the
computed score with thresholds 80 (critical), 60 (high), 40 (moderate), low
below 40 and the more positive description below 20, while
`calculateEnhancedHealthRiskScore` derives its level from the distinct
thresholds 75 / 50 / 25 (or returns the `unknown` missing-patient result
before any level is computed). -/
theorem c5_level_thresholds (s : Nat) (a tp td ms ai : Nat) (db : DB) (pid : Nat) :
    ((computeHealthRiskScore a tp td ms ai).level =
      riskLevelOf (computeHealthRiskScore a tp td ms ai).score ∧
     (computeHealthRiskScore a tp td ms ai).description =
      riskDescriptionOf (computeHealthRiskScore a tp td ms ai).score) ∧
    ((riskLevelOf s = "critical" ↔ 80 ≤ s) ∧
     (riskLevelOf s = "high" ↔ 60 ≤ s ∧ s < 80) ∧
     (riskLevelOf s = "moderate" ↔ 40 ≤ s ∧ s < 60) ∧
     (riskLevelOf s = "low" ↔ s < 40) ∧
     (s < 20 → riskDescriptionOf s = "✅ Your health is in good condition")) ∧
    ((calculateEnhancedHealthRiskScore db pid).level =
        enhancedLevelOf (calculateEnhancedHealthRiskScore db pid).score ∨
      calculateEnhancedHealthRiskScore db pid =
        { score := 0, level := "unknown", factors := [] }) ∧
    ((enhancedLevelOf s = "critical" ↔ 75 ≤ s) ∧
     (enhancedLevelOf s = "high" ↔ 50 ≤ s ∧ s < 75) ∧
     (enhancedLevelOf s = "moderate" ↔ 25 ≤ s ∧ s < 50) ∧
     (enhancedLevelOf s = "low" ↔ s < 25)) := by
  refine ⟨⟨rfl, rfl⟩, ⟨?_, ?_, ?_, ?_, ?_⟩, ?_, ⟨?_, ?_, ?_, ?_⟩⟩
  · unfold riskLevelOf; split_ifs <;> simp_all
  · unfold riskLevelOf; split_ifs <;> simp_all <;> try omega
  · unfold riskLevelOf; split_ifs <;> simp_all <;> try omega
  · unfold riskLevelOf; split_ifs <;> simp_all <;> try omega
  · intro hs; unfold riskDescriptionOf; split_ifs <;> simp_all <;> try omega
  · unfold calculateEnhancedHealthRiskScore
    cases h : db.patients.filter (fun p => decide (p.patient_id = pid)) with
    | nil => exact Or.inr rfl
    | cons p l => exact Or.inl rfl
  · unfold enhancedLevelOf; split_ifs <;> simp_all
  · unfold enhancedLevelOf; split_ifs <;> simp_all <;> try omega
  · unfold enhancedLevelOf; split_ifs <;> simp_all <;> try omega
  · unfold enhancedLevelOf; split_ifs <;> simp_all <;> try omega

/-- C5 witness: the thresholds at concrete scores. -/
theorem c5_level_thresholds_witness :
    riskLevelOf 85 = "critical" ∧ riskLevelOf 62 = "high" ∧
    riskLevelOf 41 = "moderate" ∧ riskLevelOf 12 = "low" ∧
    riskDescriptionOf 12 = "✅ Your health is in good condition" ∧
    enhancedLevelOf 76 = "critical" ∧ enhancedLevelOf 50 = "high" ∧
    enhancedLevelOf 30 = "moderate" ∧ enhancedLevelOf 10 = "low" :=
  ⟨((c5_level_thresholds 85 0 0 0 0 0 ⟨[], [], [], [], [], []⟩ 0).2.1.1).mpr (by omega),
   ((c5_level_thresholds 62 0 0 0 0 0 ⟨[], [], [], [], [], []⟩ 0).2.1.2.1).mpr (by omega),
   ((c5_level_thresholds 41 0 0 0 0 0 ⟨[], [], [], [], [], []⟩ 0).2.1.2.2.1).mpr (by omega),
   ((c5_level_thresholds 12 0 0 0 0 0 ⟨[], [], [], [], [], []⟩ 0).2.1.2.2.2.1).mpr (by omega),
   ((c5_level_thresholds 12 0 0 0 0 0 ⟨[], [], [], [], [], []⟩ 0).2.1.2.2.2.2) (by omega),
   ((c5_level_thresholds 76 0 0 0 0 0 ⟨[], [], [], [], [], []⟩ 0).2.2.2.1).mpr (by omega),
   ((c5_level_thresholds 50 0 0 0 0 0 ⟨[], [], [], [], [], []⟩ 0).2.2.2.2.1).mpr (by omega),
   ((c5_level_thresholds 30 0 0 0 0 0 ⟨[], [], [], [], [], []⟩ 0).2.2.2.2.2.1).mpr (by omega),
   ((c5_level_thresholds 10 0 0 0 0 0 ⟨[], [], [], [], [], []⟩ 0).2.2.2.2.2.2).mpr (by omega)⟩

/-! ## Claim C6: clamping of the final scores -/

/-- C6: both scorers produce a final score in [0, 100] for every database
state (scores are `Nat`, so non-negativity is by type): each sub-score is
independently capped, and the final score is clamped with `min 100`. -/
theorem c6_clamping (a tp td ms ai : Nat) (db : DB) (pid : Nat) (c2m c6m : Int) :
    (computeHealthRiskScore a tp td ms ai).score ≤ 100 ∧
    ageFactor a ≤ 15 ∧ medicineFactor tp ≤ 30 ∧ diseaseFactor td ≤ 25 ∧
    allergyFactor ai ≤ 20 ∧
    (calculateHealthRiskScore db pid c2m c6m).1.score ≤ 100 ∧
    (calculateEnhancedHealthRiskScore db pid).score ≤ 100 := by
  refine ⟨Nat.min_le_left _ _, Nat.min_le_left _ _, Nat.min_le_left _ _,
    Nat.min_le_left _ _, Nat.min_le_left _ _, Nat.zero_le _, ?_⟩
  unfold calculateEnhancedHealthRiskScore
  cases h : db.patients.filter (fun p => decide (p.patient_id = pid)) with
  | nil => exact Nat.zero_le _
  | cons p l => exact Nat.min_le_right _ _

/-! ## Claim C3: missing patient yields the zero/unknown result -/

/-- C3: for a patient id absent from `patients`, both aggregators return
score 0, level `unknown` and an empty factor set, and no error reaches the
caller.  `calculateEnhancedHealthRiskScore` returns this result from its
explicit empty-rows check.  `calculateHealthRiskScore` reaches it through its
`catch`: the save statement fails (its `ON CONFLICT` clause is malformed, and
for an absent patient the insert would violate the foreign key in any case),
so the fallback is returned — for a missing patient as for every other. -/
theorem c3_missing_patient (db : DB) (pid : Nat) (c2m c6m : Int)
    (h : ∀ p ∈ db.patients, p.patient_id ≠ pid) :
    (calculateHealthRiskScore db pid c2m c6m).1.score = 0 ∧
    (calculateHealthRiskScore db pid c2m c6m).1.level = "unknown" ∧
    (calculateHealthRiskScore db pid c2m c6m).1.factors = [] ∧
    calculateEnhancedHealthRiskScore db pid =
      { score := 0, level := "unknown", factors := [] } := by
  refine ⟨rfl, rfl, rfl, ?_⟩
  have hf : db.patients.filter (fun p => decide (p.patient_id = pid)) = [] := by
    rw [List.filter_eq_nil_iff]
    intro p hp
    simpa using h p hp
  unfold calculateEnhancedHealthRiskScore
  rw [hf]

/-- C3 witness: a concrete store holding only patient 1, queried for
patient 2. -/
theorem c3_missing_patient_witness :
    (calculateHealthRiskScore ⟨[⟨1, some 30⟩], [], [], [], [], []⟩ 2 0 0).1.level
        = "unknown" ∧
    calculateEnhancedHealthRiskScore ⟨[⟨1, some 30⟩], [], [], [], [], []⟩ 2 =
      { score := 0, level := "unknown", factors := [] } :=
  ⟨(c3_missing_patient ⟨[⟨1, some 30⟩], [], [], [], [], []⟩ 2 0 0 (by decide)).2.1,
   (c3_missing_patient ⟨[⟨1, some 30⟩], [], [], [], [], []⟩ 2 0 0 (by decide)).2.2.2⟩

/-! ## Claim C4: data-access faults are converted to empty/zero defaults -/

/-- C4: a data-access fault in any underlying query of
`detectDiseasePatterns`, `detectAllergyRisks`, `detectMedicineRepetition` or
`calculateHealthRiskScore` is absorbed at that function's boundary and
converted to the same empty/zero default as no data; the functions are total,
so no exception crosses the component boundary. -/
theorem c4_fail_open
    (qd : Except Unit (List DiseaseGroupRow))
    (q1 : Except Unit (List AllergyGroupRow))
    (q2 : Except Unit (List KnownSideEffect))
    (qm : Except Unit (List MedicineGroupRow))
    (qAge : Except Unit (List (Option Nat))) (qMed : Except Unit MedFreqRow)
    (qDis : Except Unit DisFreqRow) (qAl : Except Unit Nat)
    (qS : Except Unit Unit) :
    (qd = .error () → detectDiseasePatternsCore qd = []) ∧
    (q1 = .error () ∨ q2 = .error () →
      detectAllergyRisksCore q1 q2 = { prescriptionRisks := [], knownSideEffects := [] }) ∧
    (qm = .error () → detectMedicineRepetitionCore qm = []) ∧
    (qAge = .error () ∨ qMed = .error () ∨ qDis = .error () ∨ qAl = .error () ∨
        qS = .error () →
      calculateHealthRiskScoreCore qAge qMed qDis qAl qS = riskScoreFallback) := by
  refine ⟨fun h => by rw [h]; rfl, fun h => ?_, fun h => by rw [h]; rfl, fun h => ?_⟩
  · rcases h with h | h
    · rw [h]; rfl
    · cases q1 with
      | error e => rfl
      | ok a => rw [h]; rfl
  · rcases h with h | h | h | h | h <;> rw [h] <;>
      cases qAge <;> cases qMed <;> cases qDis <;> cases qAl <;> cases qS <;> rfl

/-- C4 witness: each component at a concrete failing query. -/
theorem c4_fail_open_witness :
    detectDiseasePatternsCore (.error ()) = [] ∧
    detectAllergyRisksCore (.ok []) (.error ()) =
      { prescriptionRisks := [], knownSideEffects := [] } ∧
    detectMedicineRepetitionCore (.error ()) = [] ∧
    calculateHealthRiskScoreCore (.ok []) (.error ()) (.ok ⟨0, 0, 0⟩) (.ok 0)
      (.ok ()) = riskScoreFallback :=
  ⟨(c4_fail_open (.error ()) (.ok []) (.error ()) (.error ()) (.ok [])
      (.error ()) (.ok ⟨0, 0, 0⟩) (.ok 0) (.ok ())).1 rfl,
   (c4_fail_open (.error ()) (.ok []) (.error ()) (.error ()) (.ok [])
      (.error ()) (.ok ⟨0, 0, 0⟩) (.ok 0) (.ok ())).2.1 (Or.inr rfl),
   (c4_fail_open (.error ()) (.ok []) (.error ()) (.error ()) (.ok [])
      (.error ()) (.ok ⟨0, 0, 0⟩) (.ok 0) (.ok ())).2.2.1 rfl,
   (c4_fail_open (.error ()) (.ok []) (.error ()) (.error ()) (.ok [])
      (.error ()) (.ok ⟨0, 0, 0⟩) (.ok 0) (.ok ())).2.2.2 (Or.inr (Or.inl rfl))⟩

/-! ## Claim C9: unauthorized chat senders are rejected without effect -/

/-- C9: when the appointment exists but the sender is neither its patient
(for role `patient`) nor its doctor (for role `doctor`), `sendMessage` throws
the distinguishable unauthorized error — which its `catch` rethrows to the
caller — and no message row is inserted. -/
theorem c9_unauthorized_sender (st : ChatState) (aid sid : Nat)
    (role msg : String) (a : AppointmentRow)
    (hfind : st.appointments.find? (fun x => decide (x.appointment_id = aid)) = some a)
    (hno : ¬((role = "patient" ∧ a.patient_id = sid) ∨
             (role = "doctor" ∧ a.doctor_id = sid))) :
    sendMessage st aid sid role msg =
      .error "Unauthorized: sender not part of this appointment" ∧
    chatStateAfterSend st aid sid role msg = st ∧
    ("Unauthorized: sender not part of this appointment" : String) ≠
      "Appointment not found" := by
  have hsend : sendMessage st aid sid role msg =
      .error "Unauthorized: sender not part of this appointment" := by
    unfold sendMessage
    rw [hfind]
    simp only [if_neg hno]
  refine ⟨hsend, ?_, by decide⟩
  unfold chatStateAfterSend
  rw [hsend]

/-- C9 witness: user 99 posing as the patient of an appointment that belongs
to patient 10 and doctor 20. -/
theorem c9_unauthorized_sender_witness :
    sendMessage ⟨[⟨1, 10, 20⟩], []⟩ 1 99 "patient" "hi" =
      .error "Unauthorized: sender not part of this appointment" ∧
    chatStateAfterSend ⟨[⟨1, 10, 20⟩], []⟩ 1 99 "patient" "hi" =
      ⟨[⟨1, 10, 20⟩], []⟩ :=
  ⟨(c9_unauthorized_sender ⟨[⟨1, 10, 20⟩], []⟩ 1 99 "patient" "hi" ⟨1, 10, 20⟩
      rfl (by decide)).1,
   (c9_unauthorized_sender ⟨[⟨1, 10, 20⟩], []⟩ 1 99 "patient" "hi" ⟨1, 10, 20⟩
      rfl (by decide)).2.1⟩

/-! ## Claim C1: the daily risk-score upsert -/

/-- A store holding one patient (id 1, age 42) and nothing else. -/
def exDB1 : DB := ⟨[⟨1, some 42⟩], [], [], [], [], []⟩

/-- C1: the persistence statement of `calculateHealthRiskScore` never takes
effect — its `ON CONFLICT (patient_id, calculated_at::DATE)` target is
rejected by PostgreSQL's grammar, the error is swallowed by the `catch`, and
both same-day calls return the fallback and leave zero (not one) rows for the
(patient, day) pair.  The upsert the schema's unique index intends does
satisfy the claim: applied twice for the same patient and day, it leaves
exactly one row. -/
theorem c1_save_never_persists :
    (let r1 := calculateHealthRiskScore exDB1 1 0 0
     let r2 := calculateHealthRiskScore r1.2 1 0 0
     riskRowsFor r2.2 1 0 = 0 ∧ r1.1 = riskScoreFallback ∧
       r2.1 = riskScoreFallback) ∧
    (∀ (db : DB) (pid s1 s2 : Nat) (l1 l2 : String) (day : Int),
      riskRowsFor
        (upsertRiskScoreIntended (upsertRiskScoreIntended db pid s1 l1 day)
          pid s2 l2 day) pid day = 1) := by
  refine ⟨⟨by decide, rfl, rfl⟩, ?_⟩
  intro db pid s1 s2 l1 l2 day
  unfold riskRowsFor upsertRiskScoreIntended
  have key : ∀ (l : List RiskScoreRow),
      (l.filter (fun r => decide (¬(r.patient_id = pid ∧ r.calculated_at = day)))).filter
        (fun r => decide (r.patient_id = pid ∧ r.calculated_at = day)) = [] := by
    intro l
    rw [List.filter_eq_nil_iff]
    intro r hr
    have h2 := (List.mem_filter.mp hr).2
    simp only [decide_eq_true_eq] at h2 ⊢
    exact h2
  simp [List.filter_append, key]

/-! ## Claim C8: disease pattern detection -/

/-- The classification mapping of `detectDiseasePatterns`, split by
frequency. -/
theorem classifyDisease_spec (g : DiseaseGroupRow) :
    (classifyDisease g).disease_name = g.disease_name ∧
    (classifyDisease g).frequency = g.frequency ∧
    ((classifyDisease g).is_chronic = true ↔ 3 ≤ g.frequency) ∧
    (3 ≤ g.frequency → (classifyDisease g).risk_assessment =
      "Possible chronic condition - recommend specialist consultation") ∧
    (g.frequency = 2 → (classifyDisease g).risk_assessment =
      "Recurring pattern detected - monitor closely") ∧
    (g.frequency = 1 → (classifyDisease g).risk_assessment =
      "Single occurrence - standard monitoring") := by
  refine ⟨rfl, rfl, by simp [classifyDisease], ?_, ?_, ?_⟩
  · intro h
    simp only [classifyDisease, if_pos h]
  · intro h
    simp only [classifyDisease, if_neg (by omega : ¬ 3 ≤ g.frequency), if_pos h]
  · intro h
    simp only [classifyDisease, if_neg (by omega : ¬ 3 ≤ g.frequency),
      if_neg (by omega : ¬ g.frequency = 2)]

/-- C8: `detectDiseasePatterns` returns one entry per distinct disease
diagnosed in the 6-month window, sorted by occurrence frequency descending,
with `is_chronic` exactly on frequency ≥ 3 and the matching assessments at
frequencies 2 and 1; a patient with no disease rows in the window yields the
empty list, not an error. -/
theorem c8_disease_patterns (db : DB) (pid : Nat) (cutoff : Int) :
    ((detectDiseasePatterns db pid cutoff).map (·.disease_name)).Nodup ∧
    (∀ n : String,
      (∃ e ∈ detectDiseasePatterns db pid cutoff, e.disease_name = n) ↔
      (∃ r ∈ diseaseRowsInWindow db pid cutoff, r.disease_name = n)) ∧
    (detectDiseasePatterns db pid cutoff).Pairwise
      (fun a b => b.frequency ≤ a.frequency) ∧
    (∀ e ∈ detectDiseasePatterns db pid cutoff,
      e.frequency = ((diseaseRowsInWindow db pid cutoff).filter
        (fun r => decide (r.disease_name = e.disease_name))).length ∧
      (e.is_chronic = true ↔ 3 ≤ e.frequency) ∧
      (3 ≤ e.frequency → e.risk_assessment =
        "Possible chronic condition - recommend specialist consultation") ∧
      (e.frequency = 2 → e.risk_assessment =
        "Recurring pattern detected - monitor closely") ∧
      (e.frequency = 1 → e.risk_assessment =
        "Single occurrence - standard monitoring")) ∧
    (diseaseRowsInWindow db pid cutoff = [] →
      detectDiseasePatterns db pid cutoff = []) := by
  haveI : IsTotal DiseaseGroupRow (fun a b => b.frequency ≤ a.frequency) :=
    ⟨fun _ _ => le_total _ _⟩
  haveI : IsTrans DiseaseGroupRow (fun a b => b.frequency ≤ a.frequency) :=
    ⟨fun _ _ _ h1 h2 => le_trans h2 h1⟩
  set rows := diseaseRowsInWindow db pid cutoff with hrowsdef
  have hres : detectDiseasePatterns db pid cutoff =
      (List.insertionSort (fun a b => b.frequency ≤ a.frequency)
        ((dedupFirst (rows.map (·.disease_name))).map
          (diseaseGroupFor rows))).map classifyDisease := rfl
  set groups := (dedupFirst (rows.map (·.disease_name))).map (diseaseGroupFor rows)
    with hgroupsdef
  have hperm : List.Perm
      (List.insertionSort (fun a b : DiseaseGroupRow => b.frequency ≤ a.frequency)
        groups) groups := List.perm_insertionSort _ _
  have hgroupnames : groups.map (·.disease_name) =
      dedupFirst (rows.map (·.disease_name)) := by
    rw [hgroupsdef, List.map_map]
    exact List.map_id' _
  have hmapname : List.Perm
      ((detectDiseasePatterns db pid cutoff).map (·.disease_name))
      (dedupFirst (rows.map (·.disease_name))) := by
    rw [hres, List.map_map]
    have h2 := hperm.map (fun g : DiseaseGroupRow => g.disease_name)
    rw [hgroupnames] at h2
    exact h2
  refine ⟨?_, ?_, ?_, ?_, ?_⟩
  · exact hmapname.nodup_iff.mpr (nodup_dedupFirst _)
  · intro n
    constructor
    · rintro ⟨e, he, rfl⟩
      have : e.disease_name ∈
          (detectDiseasePatterns db pid cutoff).map (·.disease_name) :=
        List.mem_map.mpr ⟨e, he, rfl⟩
      have := mem_dedupFirst.mp (hmapname.mem_iff.mp this)
      obtain ⟨r, hr, hrn⟩ := List.mem_map.mp this
      exact ⟨r, hr, hrn⟩
    · rintro ⟨r, hr, rfl⟩
      have hn : r.disease_name ∈ dedupFirst (rows.map (·.disease_name)) :=
        mem_dedupFirst.mpr (List.mem_map.mpr ⟨r, hr, rfl⟩)
      have := hmapname.mem_iff.mpr hn
      obtain ⟨e, he, hen⟩ := List.mem_map.mp this
      exact ⟨e, he, hen⟩
  · rw [hres, List.pairwise_map]
    exact List.sorted_insertionSort (fun a b => b.frequency ≤ a.frequency) groups
  · intro e he
    rw [hres] at he
    obtain ⟨gr, hgr, rfl⟩ := List.mem_map.mp he
    have hgr' : gr ∈ groups := hperm.subset hgr
    obtain ⟨n, _, rfl⟩ := List.mem_map.mp hgr'
    obtain ⟨h1, h2, h3, h4, h5, h6⟩ := classifyDisease_spec (diseaseGroupFor rows n)
    refine ⟨?_, by rw [h2]; exact h3, fun h => h4 (by rw [← h2]; exact h),
      fun h => h5 (by rw [← h2]; exact h), fun h => h6 (by rw [← h2]; exact h)⟩
    rw [h2, h1]
    show (diseaseGroupFor rows n).frequency =
      (rows.filter (fun r => decide (r.disease_name = (diseaseGroupFor rows n).disease_name))).length
    rw [show (diseaseGroupFor rows n).disease_name = n from rfl]
    simp [diseaseGroupFor]
  · intro h
    rw [hres, hgroupsdef, h]
    rfl

/-- C8 witness: a concrete history with one chronic, one recurring and one
single-occurrence disease. -/
theorem c8_disease_patterns_witness :
    detectDiseasePatterns ⟨[], [], [], [], [], []⟩ 1 0 = [] :=
  (c8_disease_patterns ⟨[], [], [], [], [], []⟩ 1 0).2.2.2.2 rfl

/-! ## Claim C2: medicine repetition detection -/

/-- `COUNT(*)` of the medicine-repetition query for one medicine: the number
of joined (prescription × disease-history) rows carrying it — not the number
of prescriptions. -/
def medicineJoinedCount (db : DB) (pid : Nat) (med : String) : Nat :=
  ((medicineJoinRows db pid).filter
    (fun r => decide (r.1.medicine_name = med))).length

/-- A store where patient 1 has one medicine prescribed exactly twice and two
disease-history rows: the disease join doubles the count. -/
def exC2 : DB :=
  ⟨[⟨1, some 30⟩], [⟨1, 1, 7⟩],
   [⟨1, 1, "Amoxicillin", "500mg", 0, false, none⟩,
    ⟨2, 1, "Amoxicillin", "500mg", 1, false, none⟩],
   [⟨1, "Flu", 0⟩, ⟨1, "Cold", 1⟩], [], []⟩

/-- C2 counterexample: a medicine prescribed exactly twice is reported by
`detectMedicineRepetition` (with `prescription_count` 4, the count of joined
rows), so the claim's membership rule — more than 2 prescriptions; exactly 2
excluded — is false on the code. -/
theorem c2_counterexample :
    prescriptionsOfMedicine exC2 1 "Amoxicillin" = 2 ∧
    (detectMedicineRepetition exC2 1).map
      (fun m => (m.medicine_name, m.prescription_count, m.risk_level)) =
      [("Amoxicillin", 4, "moderate")] := by
  constructor <;> rfl

/-- The classification mapping of `detectMedicineRepetition`. -/
theorem classifyMedicine_spec (g : MedicineGroupRow) :
    (classifyMedicine g).medicine_name = g.medicine_name ∧
    (classifyMedicine g).prescription_count = g.prescription_count ∧
    ((classifyMedicine g).risk_level = "high" ↔ 4 < g.prescription_count) ∧
    ((classifyMedicine g).risk_level = "moderate" ↔ g.prescription_count ≤ 4) ∧
    (4 < g.prescription_count → (classifyMedicine g).warning =
      g.medicine_name ++ " prescribed " ++ toString g.prescription_count ++
        " times – risk of dependency.") ∧
    (g.prescription_count ≤ 4 → (classifyMedicine g).warning =
      g.medicine_name ++ " prescribed " ++ toString g.prescription_count ++
        " times – monitor usage.") := by
  by_cases h : 4 < g.prescription_count
  · refine ⟨rfl, rfl, ?_, ?_, fun _ => ?_, fun h2 => by omega⟩ <;>
      simp [classifyMedicine, if_pos h, h] <;> omega
  · refine ⟨rfl, rfl, ?_, ?_, fun h2 => by omega, fun _ => ?_⟩ <;>
      simp [classifyMedicine, if_neg h, h] <;> omega

/-- C2 amended: `detectMedicineRepetition` returns exactly the medicines
whose joined-row count (prescriptions of the medicine × the patient's
disease-history rows, at least 1) exceeds 2 — one entry per medicine — each
carrying that joined count as `prescription_count`, `risk_level` `high`
exactly when the count exceeds 4 and `moderate` otherwise, and a warning
interpolating name and count; at count 6 the warning contains
`dependency`. -/
theorem c2_amended_medicine_repetition (db : DB) (pid : Nat) :
    ((detectMedicineRepetition db pid).map (·.medicine_name)).Nodup ∧
    (∀ med : String,
      (∃ e ∈ detectMedicineRepetition db pid, e.medicine_name = med) ↔
      2 < medicineJoinedCount db pid med) ∧
    (∀ e ∈ detectMedicineRepetition db pid,
      e.prescription_count = medicineJoinedCount db pid e.medicine_name ∧
      2 < e.prescription_count ∧
      (e.risk_level = "high" ↔ 4 < e.prescription_count) ∧
      (e.risk_level = "moderate" ↔ e.prescription_count ≤ 4) ∧
      (4 < e.prescription_count → e.warning =
        e.medicine_name ++ " prescribed " ++ toString e.prescription_count ++
          " times – risk of dependency.") ∧
      (e.prescription_count ≤ 4 → e.warning =
        e.medicine_name ++ " prescribed " ++ toString e.prescription_count ++
          " times – monitor usage.") ∧
      (e.prescription_count = 6 →
        ∃ a b : String, e.warning = a ++ "dependency" ++ b)) := by
  haveI : IsTotal MedicineGroupRow
      (fun a b => b.prescription_count ≤ a.prescription_count) :=
    ⟨fun _ _ => le_total _ _⟩
  haveI : IsTrans MedicineGroupRow
      (fun a b => b.prescription_count ≤ a.prescription_count) :=
    ⟨fun _ _ _ h1 h2 => le_trans h2 h1⟩
  set rows := medicineJoinRows db pid with hrowsdef
  have hcount : ∀ n, (medicineGroupFor rows n).prescription_count =
      medicineJoinedCount db pid n := fun n => rfl
  set flt := ((dedupFirst (rows.map (fun r => r.1.medicine_name))).map
      (medicineGroupFor rows)).filter
      (fun g => decide (2 < g.prescription_count)) with hfltdef
  have hres : detectMedicineRepetition db pid =
      (List.insertionSort
        (fun a b => b.prescription_count ≤ a.prescription_count) flt).map
        classifyMedicine := rfl
  have hperm : List.Perm
      (List.insertionSort
        (fun a b : MedicineGroupRow => b.prescription_count ≤ a.prescription_count)
        flt) flt := List.perm_insertionSort _ _
  have hprenames : ((dedupFirst (rows.map (fun r => r.1.medicine_name))).map
      (medicineGroupFor rows)).map (·.medicine_name) =
      dedupFirst (rows.map (fun r => r.1.medicine_name)) := by
    rw [List.map_map]
    exact List.map_id' _
  refine ⟨?_, ?_, ?_⟩
  · have h1 : List.Perm
        ((detectMedicineRepetition db pid).map (·.medicine_name))
        (flt.map (·.medicine_name)) := by
      rw [hres, List.map_map]
      exact hperm.map _
    refine h1.nodup_iff.mpr ?_
    have hsub : List.Sublist (flt.map (·.medicine_name))
        (((dedupFirst (rows.map (fun r => r.1.medicine_name))).map
          (medicineGroupFor rows)).map (·.medicine_name)) :=
      (List.filter_sublist _).map _
    rw [hprenames] at hsub
    exact (nodup_dedupFirst _).sublist hsub
  · intro med
    constructor
    · rintro ⟨e, he, rfl⟩
      rw [hres] at he
      obtain ⟨gr, hgr, rfl⟩ := List.mem_map.mp he
      have hgr' : gr ∈ flt := hperm.subset hgr
      have hhav := (List.mem_filter.mp hgr').2
      obtain ⟨n, _, rfl⟩ := List.mem_map.mp (List.mem_filter.mp hgr').1
      simp only [decide_eq_true_eq] at hhav
      rw [show (classifyMedicine (medicineGroupFor rows n)).medicine_name = n
        from rfl]
      rw [← hcount n]
      exact hhav
    · intro hj
      have hmem : med ∈ rows.map (fun r => r.1.medicine_name) := by
        have hpos : 0 < ((medicineJoinRows db pid).filter
            (fun r => decide (r.1.medicine_name = med))).length := by
          have := hj
          unfold medicineJoinedCount at this
          omega
        obtain ⟨r, hr⟩ := List.exists_mem_of_length_pos hpos
        have hr2 := List.mem_filter.mp hr
        refine List.mem_map.mpr ⟨r, hr2.1, ?_⟩
        simpa using hr2.2
      have hk : med ∈ dedupFirst (rows.map (fun r => r.1.medicine_name)) :=
        mem_dedupFirst.mpr hmem
      have hpre : medicineGroupFor rows med ∈
          (dedupFirst (rows.map (fun r => r.1.medicine_name))).map
            (medicineGroupFor rows) := List.mem_map.mpr ⟨med, hk, rfl⟩
      have hflt : medicineGroupFor rows med ∈ flt := by
        rw [hfltdef]
        refine List.mem_filter.mpr ⟨hpre, ?_⟩
        simpa [hcount med] using hj
      have hsorted : medicineGroupFor rows med ∈
          List.insertionSort
            (fun a b : MedicineGroupRow =>
              b.prescription_count ≤ a.prescription_count) flt :=
        hperm.mem_iff.mpr hflt
      refine ⟨classifyMedicine (medicineGroupFor rows med), ?_, rfl⟩
      rw [hres]
      exact List.mem_map.mpr ⟨medicineGroupFor rows med, hsorted, rfl⟩
  · intro e he
    rw [hres] at he
    obtain ⟨gr, hgr, rfl⟩ := List.mem_map.mp he
    have hgr' : gr ∈ flt := hperm.subset hgr
    have hhav := (List.mem_filter.mp hgr').2
    obtain ⟨n, _, rfl⟩ := List.mem_map.mp (List.mem_filter.mp hgr').1
    simp only [decide_eq_true_eq] at hhav
    obtain ⟨h1, h2, h3, h4, h5, h6⟩ := classifyMedicine_spec (medicineGroupFor rows n)
    have hcnt : (classifyMedicine (medicineGroupFor rows n)).prescription_count =
        medicineJoinedCount db pid
          (classifyMedicine (medicineGroupFor rows n)).medicine_name := by
      rw [h2, h1]
      rw [show (medicineGroupFor rows n).medicine_name = n from rfl, hcount n]
    refine ⟨hcnt, by rw [h2]; exact hhav,
      by rw [h2]; exact h3, by rw [h2]; exact h4,
      fun h => by rw [h2] at h; rw [h5 h, h1, h2],
      fun h => by rw [h2] at h; rw [h6 h, h1, h2], ?_⟩
    intro h6'
    refine ⟨(medicineGroupFor rows n).medicine_name ++
      " prescribed 6 times – risk of ", ".", ?_⟩
    have hgt : 4 < (medicineGroupFor rows n).prescription_count := by
      rw [← h2, h6']; omega
    rw [h5 hgt, ← h2, h6']
    simp only [String.append_assoc]
    exact congrArg (fun t => (medicineGroupFor rows n).medicine_name ++ t)
      (by decide)

/-- C2 amended witness: a patient with a medicine prescribed six times and no
disease rows. -/
theorem c2_amended_witness :
    (∃ e ∈ detectMedicineRepetition
      ⟨[⟨1, some 30⟩], [⟨1, 1, 7⟩],
       [⟨1, 1, "Tramadol", "50mg", 0, false, none⟩,
        ⟨2, 1, "Tramadol", "50mg", 1, false, none⟩,
        ⟨3, 1, "Tramadol", "50mg", 2, false, none⟩,
        ⟨4, 1, "Tramadol", "50mg", 3, false, none⟩,
        ⟨5, 1, "Tramadol", "50mg", 4, false, none⟩,
        ⟨6, 1, "Tramadol", "50mg", 5, false, none⟩], [], [], []⟩ 1,
      e.medicine_name = "Tramadol") := by
  refine ((c2_amended_medicine_repetition _ 1).2.1 "Tramadol").mpr (by decide)

/-! ## Claim C7: allergy / side-effect risk detection -/

theorem dedupFirst_eq_nil {κ : Type} [DecidableEq κ] {l : List κ} :
    dedupFirst l = [] ↔ l = [] := by
  cases l with
  | nil => simp [dedupFirst]
  | cons k ks => simp [dedupFirst]

/-- The patient's prescriptions carrying one (medicine, dosage) pair. -/
def dosagePrescriptions (db : DB) (pid : Nat) (med dos : String) :
    List PrescriptionRow :=
  ((prescriptionAppointmentRows db pid).map (·.1)).filter
    (fun p => decide (p.medicine_name = med ∧ p.dosage = dos))

/-- A store with two patients: patient 1 has medicine X prescribed 4 times
split over two dosages (2 + 2), patient 2 has one Ibuprofen prescription and
Ibuprofen appears in the side-effect catalog; nobody reported an allergy. -/
def exC7 : DB :=
  ⟨[⟨1, some 30⟩, ⟨2, some 40⟩], [⟨1, 1, 7⟩, ⟨2, 2, 7⟩],
   [⟨1, 1, "X", "10mg", 0, false, none⟩, ⟨2, 1, "X", "10mg", 0, false, none⟩,
    ⟨3, 1, "X", "20mg", 0, false, none⟩, ⟨4, 1, "X", "20mg", 0, false, none⟩,
    ⟨5, 2, "Ibuprofen", "200mg", 0, false, none⟩],
   [], [⟨"Ibuprofen", "nausea", "mild"⟩], []⟩

/-- C7 counterexample: patient 1's medicine X has 4 prescriptions yet is
absent from `prescriptionRisks` (the query groups per dosage), and patient 2
— zero allergy reports, a single prescription — still gets a non-empty
`knownSideEffects` list, so the claim is false on the code in both parts. -/
theorem c7_counterexample :
    prescriptionsOfMedicine exC7 1 "X" = 4 ∧
    allergyIncidentsQuery exC7 1 = 0 ∧
    (detectAllergyRisks exC7 1).prescriptionRisks = [] ∧
    allergyIncidentsQuery exC7 2 = 0 ∧
    totalPrescriptionsAllTime exC7 2 = 1 ∧
    (detectAllergyRisks exC7 2).prescriptionRisks = [] ∧
    (detectAllergyRisks exC7 2).knownSideEffects =
      [⟨"Ibuprofen", "nausea", "mild", "INFO"⟩] := by
  refine ⟨rfl, rfl, rfl, rfl, rfl, rfl, rfl⟩

/-- The classification mapping of the `prescriptionRisks` entries. -/
theorem classifyPrescriptionRisk_spec (g : AllergyGroupRow) :
    (classifyPrescriptionRisk g).medicine_name = g.medicine_name ∧
    (classifyPrescriptionRisk g).dosage = g.dosage ∧
    (classifyPrescriptionRisk g).times_prescribed = g.times_prescribed ∧
    (classifyPrescriptionRisk g).allergy_reports = g.allergy_reports ∧
    ((classifyPrescriptionRisk g).risk_level = "ALLERGY_ALERT" ↔
      0 < g.allergy_reports) ∧
    ((classifyPrescriptionRisk g).risk_level = "FREQUENCY_WARNING" ↔
      g.allergy_reports = 0) := by
  by_cases h : 0 < g.allergy_reports <;>
    refine ⟨rfl, rfl, rfl, rfl, ?_, ?_⟩ <;>
      simp [classifyPrescriptionRisk, h] <;> omega

/-- C7 amended: `prescriptionRisks` holds exactly the (medicine, dosage)
groups with a positive allergy-report count or at least 4 prescriptions,
labelled `ALLERGY_ALERT` exactly when the group's allergy-report count is
positive and `FREQUENCY_WARNING` otherwise; with zero allergy reports and no
(medicine, dosage) group at the frequency threshold, `prescriptionRisks` is
empty, while `knownSideEffects` is empty exactly when no prescribed medicine
appears in the side-effect catalog. -/
theorem c7_amended_allergy_risks (db : DB) (pid : Nat) :
    (∀ e ∈ (detectAllergyRisks db pid).prescriptionRisks,
      e.times_prescribed =
        (dosagePrescriptions db pid e.medicine_name e.dosage).length ∧
      e.allergy_reports =
        ((dosagePrescriptions db pid e.medicine_name e.dosage).filter
          (fun p => p.reported_allergy)).length ∧
      (0 < e.allergy_reports ∨ 4 ≤ e.times_prescribed) ∧
      (e.risk_level = "ALLERGY_ALERT" ↔ 0 < e.allergy_reports) ∧
      (e.risk_level = "FREQUENCY_WARNING" ↔ e.allergy_reports = 0)) ∧
    (∀ med dos : String,
      (∃ e ∈ (detectAllergyRisks db pid).prescriptionRisks,
        e.medicine_name = med ∧ e.dosage = dos) ↔
      (0 < ((dosagePrescriptions db pid med dos).filter
          (fun p => p.reported_allergy)).length ∨
        4 ≤ (dosagePrescriptions db pid med dos).length)) ∧
    (allergyIncidentsQuery db pid = 0 ∧
      (∀ med dos : String, (dosagePrescriptions db pid med dos).length < 4) →
      (detectAllergyRisks db pid).prescriptionRisks = []) ∧
    ((detectAllergyRisks db pid).knownSideEffects = [] ↔
      ∀ pa ∈ prescriptionAppointmentRows db pid,
        ∀ m ∈ db.medicine_side_effects,
          ¬ m.medicine_name = pa.1.medicine_name) := by
  set ps := (prescriptionAppointmentRows db pid).map (·.1) with hpsdef
  have hdos : ∀ k : String × String,
      ps.filter (fun p => decide (p.medicine_name = k.1 ∧ p.dosage = k.2)) =
      dosagePrescriptions db pid k.1 k.2 := fun k => rfl
  have hres : (detectAllergyRisks db pid).prescriptionRisks =
      (((dedupFirst (ps.map (fun p => (p.medicine_name, p.dosage)))).map
        (allergyGroupFor ps)).filter
        (fun g => decide (0 < g.allergy_reports ∨ 4 ≤ g.times_prescribed))).map
        classifyPrescriptionRisk := rfl
  have hflag : ∀ k : String × String,
      (allergyGroupFor ps k).allergy_reports =
      ((dosagePrescriptions db pid k.1 k.2).filter
        (fun p => p.reported_allergy)).length := fun k => rfl
  have htimes : ∀ k : String × String,
      (allergyGroupFor ps k).times_prescribed =
      (dosagePrescriptions db pid k.1 k.2).length := fun k => rfl
  refine ⟨?_, ?_, ?_, ?_⟩
  · intro e he
    rw [hres] at he
    obtain ⟨gr, hgr, rfl⟩ := List.mem_map.mp he
    have hhav := (List.mem_filter.mp hgr).2
    obtain ⟨k, _, rfl⟩ := List.mem_map.mp (List.mem_filter.mp hgr).1
    simp only [decide_eq_true_eq] at hhav
    obtain ⟨h1, h2, h3, h4, h5, h6⟩ :=
      classifyPrescriptionRisk_spec (allergyGroupFor ps k)
    rw [show (allergyGroupFor ps k).medicine_name = k.1 from rfl] at h1
    rw [show (allergyGroupFor ps k).dosage = k.2 from rfl] at h2
    refine ⟨?_, ?_, ?_, ?_, ?_⟩
    · rw [h3, h1, h2, htimes k]
    · rw [h4, h1, h2, hflag k]
    · rw [h3, h4]; exact hhav
    · rw [h4]; exact h5
    · rw [h4]; exact h6
  · intro med dos
    constructor
    · rintro ⟨e, he, hmed, hdose⟩
      rw [hres] at he
      obtain ⟨gr, hgr, rfl⟩ := List.mem_map.mp he
      have hhav := (List.mem_filter.mp hgr).2
      obtain ⟨k, _, rfl⟩ := List.mem_map.mp (List.mem_filter.mp hgr).1
      simp only [decide_eq_true_eq] at hhav
      have hk1 : k.1 = med := by
        rw [← hmed]; rfl
      have hk2 : k.2 = dos := by
        rw [← hdose]; rfl
      rw [← hk1, ← hk2]
      rw [← hflag k, ← htimes k]
      exact hhav
    · intro hq
      have hone : 0 < (dosagePrescriptions db pid med dos).length := by
        rcases hq with h | h
        · have hs : List.Sublist
              ((dosagePrescriptions db pid med dos).filter
                (fun p => p.reported_allergy))
              (dosagePrescriptions db pid med dos) := List.filter_sublist _
          have := hs.length_le
          omega
        · omega
      obtain ⟨p, hp⟩ := List.exists_mem_of_length_pos hone
      have hp2 := List.mem_filter.mp hp
      simp only [decide_eq_true_eq] at hp2
      have hkmem : (med, dos) ∈ ps.map (fun p => (p.medicine_name, p.dosage)) :=
        List.mem_map.mpr ⟨p, hp2.1, by rw [hp2.2.1, hp2.2.2]⟩
      have hk : (med, dos) ∈
          dedupFirst (ps.map (fun p => (p.medicine_name, p.dosage))) :=
        mem_dedupFirst.mpr hkmem
      have hpre : allergyGroupFor ps (med, dos) ∈
          (dedupFirst (ps.map (fun p => (p.medicine_name, p.dosage)))).map
            (allergyGroupFor ps) := List.mem_map.mpr ⟨(med, dos), hk, rfl⟩
      refine ⟨classifyPrescriptionRisk (allergyGroupFor ps (med, dos)), ?_,
        rfl, rfl⟩
      rw [hres]
      refine List.mem_map.mpr ⟨allergyGroupFor ps (med, dos), ?_, rfl⟩
      refine List.mem_filter.mpr ⟨hpre, ?_⟩
      simp only [decide_eq_true_eq]
      rw [hflag (med, dos), htimes (med, dos)]
      exact hq
  · rintro ⟨hzero, hfreq⟩
    rw [hres]
    rw [show (((dedupFirst (ps.map (fun p => (p.medicine_name, p.dosage)))).map
        (allergyGroupFor ps)).filter
        (fun g => decide (0 < g.allergy_reports ∨ 4 ≤ g.times_prescribed))) = []
      from ?_]
    · rfl
    · rw [List.filter_eq_nil_iff]
      intro g hg
      obtain ⟨k, _, rfl⟩ := List.mem_map.mp hg
      simp only [decide_eq_true_eq]
      rintro (h | h)
      · rw [hflag k] at h
        have hall : (ps.filter (fun p => p.reported_allergy)).length = 0 := by
          have : ps.filter (fun p => p.reported_allergy) =
              ((prescriptionAppointmentRows db pid).filter
                (fun pa => pa.1.reported_allergy)).map (·.1) := by
            rw [hpsdef]
            exact List.filter_map _ _
          rw [this, List.length_map]
          exact hzero
        have hsub : List.Sublist
            ((dosagePrescriptions db pid k.1 k.2).filter
              (fun p => p.reported_allergy))
            (ps.filter (fun p => p.reported_allergy)) := by
          rw [← hdos k]
          exact List.Sublist.filter _ (List.filter_sublist _)
        have := hsub.length_le
        omega
      · rw [htimes k] at h
        have := hfreq k.1 k.2
        omega
  · have hkse : (detectAllergyRisks db pid).knownSideEffects =
        (knownSideEffectsQuery db pid).map classifySideEffect := rfl
    rw [hkse]
    rw [List.map_eq_nil_iff]
    have hq : knownSideEffectsQuery db pid =
        List.insertionSort (fun a b => b.severity ≤ a.severity)
          (dedupFirst ((prescriptionAppointmentRows db pid).flatMap (fun pa =>
            (db.medicine_side_effects.filter (fun m =>
              decide (m.medicine_name = pa.1.medicine_name))).map
            (fun m => { medicine_name := pa.1.medicine_name
                        side_effect := m.side_effect
                        severity := m.severity })))) := rfl
    rw [hq]
    constructor
    · intro hnil pa hpa m hm hname
      have hperm := List.perm_insertionSort
        (fun a b : KnownSideEffect => b.severity ≤ a.severity)
        (dedupFirst ((prescriptionAppointmentRows db pid).flatMap (fun pa =>
          (db.medicine_side_effects.filter (fun m =>
            decide (m.medicine_name = pa.1.medicine_name))).map
          (fun m => { medicine_name := pa.1.medicine_name
                      side_effect := m.side_effect
                      severity := m.severity }))))
      rw [hnil] at hperm
      have hdednil := hperm.symm.eq_nil
      have htrip := List.flatMap_eq_nil_iff.mp (dedupFirst_eq_nil.mp hdednil) pa hpa
      rw [List.map_eq_nil_iff, List.filter_eq_nil_iff] at htrip
      exact htrip m hm (by simpa using hname)
    · intro hnone
      have htrip : ((prescriptionAppointmentRows db pid).flatMap (fun pa =>
          (db.medicine_side_effects.filter (fun m =>
            decide (m.medicine_name = pa.1.medicine_name))).map
          (fun m => ({ medicine_name := pa.1.medicine_name
                       side_effect := m.side_effect
                       severity := m.severity } : KnownSideEffect)))) = [] := by
        rw [List.flatMap_eq_nil_iff]
        intro pa hpa
        rw [List.map_eq_nil_iff, List.filter_eq_nil_iff]
        intro m hm
        simpa using hnone pa hpa m hm
      rw [htrip]
      rfl

/-- C7 amended witness: a patient with one allergy-flagged prescription gets
that (medicine, dosage) group reported. -/
theorem c7_amended_witness :
    ∃ e ∈ (detectAllergyRisks
      ⟨[⟨3, some 30⟩], [⟨9, 3, 7⟩],
       [⟨1, 9, "Penicillin", "250mg", 0, true, none⟩], [], [], []⟩
      3).prescriptionRisks,
      e.medicine_name = "Penicillin" ∧ e.dosage = "250mg" :=
  ((c7_amended_allergy_risks
    ⟨[⟨3, some 30⟩], [⟨9, 3, 7⟩],
     [⟨1, 9, "Penicillin", "250mg", 0, true, none⟩], [], [], []⟩ 3).2.1
    "Penicillin" "250mg").mpr (by decide)

/-! ## Claim C10: round trip of the serialization boundary

The lemmas below show that the parser undoes the serializer, piece by piece:
hexadecimal escapes, string bodies, decimal numerals, and finally whole
values by induction on the parser's fuel. -/

/-- The continuation after a serialized value is empty or starts with a JSON
delimiter, never with a digit, so the number parser stops in time. -/
def sepOk : List Char → Prop
  | [] => True
  | c :: _ => isDigitChar c = false

theorem parseHexDigit_hexDigitChar :
    ∀ n : Nat, n < 16 → parseHexDigit (hexDigitChar n) = some n := by decide

theorem digitChar_facts : ∀ n : Nat, n < 10 →
    isDigitChar (Char.ofNat ('0'.toNat + n)) = true ∧
    digitVal (Char.ofNat ('0'.toNat + n)) = n := by decide

theorem digit_not_special (c : Char) (h : isDigitChar c = true) :
    c ≠ 'n' ∧ c ≠ 't' ∧ c ≠ 'f' ∧ c ≠ '"' ∧ c ≠ '[' ∧ c ≠ '\x7b' ∧
    c ≠ ']' ∧ c ≠ '\x7d' ∧ c ≠ '-' := by
  refine ⟨?_, ?_, ?_, ?_, ?_, ?_, ?_, ?_, ?_⟩ <;> rintro rfl <;>
    exact absurd h (by decide)

theorem natToDigits_spec : ∀ n : Nat, (natToDigits n ≠ [] ∧
    ∀ c ∈ natToDigits n, isDigitChar c = true) := by
  intro n
  induction n using Nat.strong_induction_on with
  | _ n ih =>
    rw [natToDigits.eq_def]
    by_cases h : n < 10
    · simp only [if_pos h]
      refine ⟨by simp, ?_⟩
      intro c hc
      simp only [List.mem_singleton] at hc
      subst hc
      exact (digitChar_facts n h).1
    · simp only [if_neg h]
      have ihd := ih (n / 10) (Nat.div_lt_self (by omega) (by omega))
      refine ⟨by simp [ihd.1], ?_⟩
      intro c hc
      rcases List.mem_append.mp hc with hc | hc
      · exact ihd.2 c hc
      · simp only [List.mem_singleton] at hc
        subst hc
        exact (digitChar_facts (n % 10) (by omega)).1

theorem natToDigits_head (n : Nat) :
    ∃ c tl, natToDigits n = c :: tl ∧ isDigitChar c = true := by
  obtain ⟨h1, h2⟩ := natToDigits_spec n
  cases hd : natToDigits n with
  | nil => exact absurd hd h1
  | cons c tl =>
    refine ⟨c, tl, rfl, h2 c ?_⟩
    rw [hd]
    exact List.mem_cons_self c tl

theorem foldl_natToDigits : ∀ n acc : Nat,
    (natToDigits n).foldl (fun a c => a * 10 + digitVal c) acc =
      acc * 10 ^ (natToDigits n).length + n := by
  intro n
  induction n using Nat.strong_induction_on with
  | _ n ih =>
    intro acc
    rw [natToDigits.eq_def]
    by_cases h : n < 10
    · simp only [if_pos h]
      have hd : digitVal (Char.ofNat (48 + n)) = n := by
        simpa using (digitChar_facts n h).2
      simp [List.foldl, hd]
    · simp only [if_neg h]
      rw [List.foldl_append]
      rw [ih (n / 10) (Nat.div_lt_self (by omega) (by omega)) acc]
      simp only [List.foldl, List.length_append, List.length_singleton]
      rw [(digitChar_facts (n % 10) (by omega)).2]
      rw [pow_succ]
      have := Nat.div_add_mod n 10
      ring_nf
      omega

theorem parseDigits_stop (rest : List Char) (acc : Nat) (h : sepOk rest) :
    parseDigits rest acc = (acc, rest) := by
  cases rest with
  | nil => rfl
  | cons c r =>
    rw [parseDigits]
    simp only [sepOk] at h
    rw [if_neg (by simp [h])]

theorem parseDigits_run : ∀ (l : List Char), (∀ c ∈ l, isDigitChar c = true) →
    ∀ (rest : List Char) (acc : Nat),
    parseDigits (l ++ rest) acc =
      parseDigits rest (l.foldl (fun a c => a * 10 + digitVal c) acc) := by
  intro l
  induction l with
  | nil => intro _ rest acc; rfl
  | cons c t iht =>
    intro hall rest acc
    rw [List.cons_append, parseDigits, if_pos (hall c (List.mem_cons_self c t))]
    exact iht (fun c hc => hall c (List.mem_cons_of_mem _ hc)) rest _

theorem parseDigits_natToDigits (n : Nat) (rest : List Char) (h : sepOk rest) :
    parseDigits (natToDigits n ++ rest) 0 = (n, rest) := by
  rw [parseDigits_run (natToDigits n) (natToDigits_spec n).2 rest 0,
    parseDigits_stop rest _ h, foldl_natToDigits]
  simp

theorem parseNumber_neg (c : Char) (X : List Char) (h : isDigitChar c = true) :
    parseNumber ('-' :: c :: X) =
      some (-(((parseDigits (c :: X) 0).1 : Nat) : Int), (parseDigits (c :: X) 0).2) := by
  rw [parseNumber.eq_def]
  simp [h]

theorem parseNumber_pos (c : Char) (X : List Char) (h : isDigitChar c = true) :
    parseNumber (c :: X) =
      some ((((parseDigits (c :: X) 0).1 : Nat) : Int), (parseDigits (c :: X) 0).2) := by
  rw [parseNumber.eq_def]
  simp [h, (digit_not_special c h).2.2.2.2.2.2.2.2]

theorem parseNumber_intToDigits (i : Int) (rest : List Char) (hsep : sepOk rest) :
    parseNumber (intToDigits i ++ rest) = some (i, rest) := by
  unfold intToDigits
  by_cases hneg : i < 0
  · simp only [if_pos hneg]
    obtain ⟨c, tl, hct, hcd⟩ := natToDigits_head i.natAbs
    rw [List.cons_append, hct, List.cons_append, parseNumber_neg c (tl ++ rest) hcd]
    rw [show (c :: (tl ++ rest)) = (c :: tl) ++ rest from rfl, ← hct]
    rw [parseDigits_natToDigits i.natAbs rest hsep]
    have h2 : -((i.natAbs : Nat) : Int) = i := by omega
    rw [h2]
  · simp only [if_neg hneg]
    obtain ⟨c, tl, hct, hcd⟩ := natToDigits_head i.toNat
    rw [hct, List.cons_append, parseNumber_pos c (tl ++ rest) hcd]
    rw [show (c :: (tl ++ rest)) = (c :: tl) ++ rest from rfl, ← hct]
    rw [parseDigits_natToDigits i.toNat rest hsep]
    have h2 : ((i.toNat : Nat) : Int) = i := by omega
    rw [h2]

theorem parseStringBody_escBody (l : List Char) : ∀ (rest : List Char),
    parseStringBody (escBody l ++ '"' :: rest) = some (l, rest) := by
  induction l with
  | nil =>
    intro rest
    show parseStringBody ('"' :: rest) = some ([], rest)
    rw [parseStringBody.eq_def]
    simp
  | cons c t ih =>
    intro rest
    have hb : escBody (c :: t) ++ '"' :: rest =
        escapeChar c ++ (escBody t ++ '"' :: rest) := by
      simp [escBody, List.flatMap_cons, List.append_assoc]
    rw [hb]
    unfold escapeChar
    by_cases h1 : c = '"'
    · subst h1
      rw [if_pos rfl, List.cons_append, List.cons_append, parseStringBody.eq_def]
      simp [namedEscape, ih rest]
    · rw [if_neg h1]
      by_cases h2 : c = '\\'
      · subst h2
        rw [if_pos rfl, List.cons_append, List.cons_append, parseStringBody.eq_def]
        simp [namedEscape, ih rest]
      · rw [if_neg h2]
        by_cases h3 : c = '\x08'
        · subst h3
          rw [if_pos rfl, List.cons_append, List.cons_append, parseStringBody.eq_def]
          simp [namedEscape, ih rest]
        · rw [if_neg h3]
          by_cases h4 : c = '\x0c'
          · subst h4
            rw [if_pos rfl, List.cons_append, List.cons_append, parseStringBody.eq_def]
            simp [namedEscape, ih rest]
          · rw [if_neg h4]
            by_cases h5 : c = '\n'
            · subst h5
              rw [if_pos rfl, List.cons_append, List.cons_append, parseStringBody.eq_def]
              simp [namedEscape, ih rest]
            · rw [if_neg h5]
              by_cases h6 : c = '\r'
              · subst h6
                rw [if_pos rfl, List.cons_append, List.cons_append,
                  parseStringBody.eq_def]
                simp [namedEscape, ih rest]
              · rw [if_neg h6]
                by_cases h7 : c = '\t'
                · subst h7
                  rw [if_pos rfl, List.cons_append, List.cons_append,
                    parseStringBody.eq_def]
                  simp [namedEscape, ih rest]
                · rw [if_neg h7]
                  by_cases h8 : c.toNat < 32
                  · rw [if_pos h8]
                    rw [show (['\\', 'u', '0', '0', hexDigitChar (c.toNat / 16),
                        hexDigitChar (c.toNat % 16)] ++ (escBody t ++ '"' :: rest)) =
                      '\\' :: 'u' :: '0' :: '0' :: hexDigitChar (c.toNat / 16) ::
                        hexDigitChar (c.toNat % 16) :: (escBody t ++ '"' :: rest)
                      from rfl]
                    rw [parseStringBody.eq_def]
                    have hx1 : parseHexDigit (hexDigitChar (c.toNat / 16)) =
                        some (c.toNat / 16) :=
                      parseHexDigit_hexDigitChar _ (by omega)
                    have hx2 : parseHexDigit (hexDigitChar (c.toNat % 16)) =
                        some (c.toNat % 16) :=
                      parseHexDigit_hexDigitChar _ (by omega)
                    have h0 : parseHexDigit '0' = some 0 := by decide
                    simp only [List.cons.injEq, h0, hx1, hx2, ih rest]
                    have harith : c.toNat / 16 * 16 + c.toNat % 16 = c.toNat := by
                      omega
                    simp [harith, Char.ofNat_toNat, ih rest]
                  · rw [if_neg h8, List.singleton_append, parseStringBody.eq_def]
                    simp [h1, h2, ih rest]

/-- The first character of a serialized value is never a closing bracket,
a closing brace or a digit-run continuation hazard for the array and object
parsers. -/
theorem stringifyV_head (v : JVal) :
    ∃ c tl, stringifyV v = c :: tl ∧ c ≠ ']' ∧ c ≠ '\x7d' := by
  cases v with
  | null => exact ⟨'n', _, rfl, by decide, by decide⟩
  | bool b => cases b with
    | true => exact ⟨'t', _, rfl, by decide, by decide⟩
    | false => exact ⟨'f', _, rfl, by decide, by decide⟩
  | num i =>
    show ∃ c tl, intToDigits i = c :: tl ∧ c ≠ ']' ∧ c ≠ '\x7d'
    unfold intToDigits
    by_cases h : i < 0
    · rw [if_pos h]
      exact ⟨'-', _, rfl, by decide, by decide⟩
    · rw [if_neg h]
      obtain ⟨c, tl, hct, hcd⟩ := natToDigits_head i.toNat
      exact ⟨c, tl, hct, (digit_not_special c hcd).2.2.2.2.2.2.1,
        (digit_not_special c hcd).2.2.2.2.2.2.2.1⟩
  | str s => exact ⟨'"', _, rfl, by decide, by decide⟩
  | arr xs => exact ⟨'[', _, rfl, by decide, by decide⟩
  | obj fs => exact ⟨'\x7b', _, rfl, by decide, by decide⟩

theorem stringifyItems_head (x : JVal) (t : List JVal) :
    ∃ c tl, stringifyItems (x :: t) = c :: tl ∧ c ≠ ']' ∧ c ≠ '\x7d' := by
  obtain ⟨c, tl, hct, hne1, hne2⟩ := stringifyV_head x
  cases t with
  | nil => exact ⟨c, tl, by rw [stringifyItems, hct], hne1, hne2⟩
  | cons y t2 =>
    refine ⟨c, tl ++ ',' :: stringifyItems (y :: t2), ?_, hne1, hne2⟩
    rw [stringifyItems, hct, List.cons_append]

theorem stringifyFields_head (f : String × JVal) (t : List (String × JVal)) :
    ∃ tl, stringifyFields (f :: t) = '"' :: tl := by
  obtain ⟨k, v⟩ := f
  cases t with
  | nil =>
    refine ⟨escBody k.data ++ ['"'] ++ (':' :: stringifyV v), ?_⟩
    show escapeString k ++ ':' :: stringifyV v = _
    show ('"' :: escBody k.data ++ ['"']) ++ ':' :: stringifyV v = _
    simp [List.append_assoc]
  | cons f2 t2 =>
    refine ⟨escBody k.data ++ ['"'] ++
      (':' :: stringifyV v ++ ',' :: stringifyFields (f2 :: t2)), ?_⟩
    show escapeString k ++ ':' :: stringifyV v ++ ',' :: stringifyFields (f2 :: t2) = _
    show ('"' :: escBody k.data ++ ['"']) ++ ':' :: stringifyV v ++
      ',' :: stringifyFields (f2 :: t2) = _
    simp [List.append_assoc]

theorem intToDigits_head_ne (i : Int) : ∃ c tl, intToDigits i = c :: tl ∧
    c ≠ 'n' ∧ c ≠ 't' ∧ c ≠ 'f' ∧ c ≠ '"' ∧ c ≠ '[' ∧ c ≠ '\x7b' := by
  unfold intToDigits
  by_cases h : i < 0
  · rw [if_pos h]
    exact ⟨'-', _, rfl, by decide, by decide, by decide, by decide, by decide,
      by decide⟩
  · rw [if_neg h]
    obtain ⟨c, tl, hct, hcd⟩ := natToDigits_head i.toNat
    obtain ⟨a1, a2, a3, a4, a5, a6, -, -, -⟩ := digit_not_special c hcd
    exact ⟨c, tl, hct, a1, a2, a3, a4, a5, a6⟩

theorem sepOk_cons (c : Char) (X : List Char) (h : isDigitChar c = false) :
    sepOk (c :: X) := h

theorem mk_data (s : String) : String.mk s.data = s := rfl

/-! Unfolding equations for the fueled parser, one per input shape. -/

theorem parseVal_null (fuel : Nat) (rest : List Char) :
    parseVal (fuel + 1) ('n' :: 'u' :: 'l' :: 'l' :: rest) =
      some (.null, rest) := rfl

theorem parseVal_true (fuel : Nat) (rest : List Char) :
    parseVal (fuel + 1) ('t' :: 'r' :: 'u' :: 'e' :: rest) =
      some (.bool true, rest) := rfl

theorem parseVal_false (fuel : Nat) (rest : List Char) :
    parseVal (fuel + 1) ('f' :: 'a' :: 'l' :: 's' :: 'e' :: rest) =
      some (.bool false, rest) := rfl

theorem parseVal_str (fuel : Nat) (X : List Char) :
    parseVal (fuel + 1) ('"' :: X) =
      (parseStringBody X).map (fun p => (.str (String.mk p.1), p.2)) := rfl

theorem parseVal_arrNil (fuel : Nat) (r : List Char) :
    parseVal (fuel + 1) ('[' :: ']' :: r) = some (.arr [], r) := rfl

theorem parseVal_arrCons (fuel : Nat) (c2 : Char) (r : List Char)
    (h : ¬ c2 = ']') :
    parseVal (fuel + 1) ('[' :: c2 :: r) =
      (parseItems fuel (c2 :: r)).map (fun p => (.arr p.1, p.2)) := by
  show (if c2 = ']' then some (JVal.arr [], r)
    else (parseItems fuel (c2 :: r)).map
      (fun p : List JVal × List Char => (JVal.arr p.1, p.2))) = _
  rw [if_neg h]

theorem parseVal_objNil (fuel : Nat) (r : List Char) :
    parseVal (fuel + 1) ('\x7b' :: '\x7d' :: r) = some (.obj [], r) := rfl

theorem parseVal_objCons (fuel : Nat) (c2 : Char) (r : List Char)
    (h : ¬ c2 = '\x7d') :
    parseVal (fuel + 1) ('\x7b' :: c2 :: r) =
      (parseFields fuel (c2 :: r)).map (fun p => (.obj p.1, p.2)) := by
  show (if c2 = '\x7d' then some (JVal.obj [], r)
    else (parseFields fuel (c2 :: r)).map
      (fun p : List (String × JVal) × List Char => (JVal.obj p.1, p.2))) = _
  rw [if_neg h]

theorem parseVal_other (fuel : Nat) (c : Char) (rest : List Char)
    (h1 : ¬ c = 'n') (h2 : ¬ c = 't') (h3 : ¬ c = 'f') (h4 : ¬ c = '"')
    (h5 : ¬ c = '[') (h6 : ¬ c = '\x7b') :
    parseVal (fuel + 1) (c :: rest) =
      (parseNumber (c :: rest)).map (fun p => (.num p.1, p.2)) := by
  show (if c = 'n' then
      match rest with
      | 'u' :: 'l' :: 'l' :: r => some (JVal.null, r)
      | _ => none
    else if c = 't' then
      match rest with
      | 'r' :: 'u' :: 'e' :: r => some (JVal.bool true, r)
      | _ => none
    else if c = 'f' then
      match rest with
      | 'a' :: 'l' :: 's' :: 'e' :: r => some (JVal.bool false, r)
      | _ => none
    else if c = '"' then
      (parseStringBody rest).map (fun p => (JVal.str (String.mk p.1), p.2))
    else if c = '[' then
      match rest with
      | [] => none
      | c2 :: r =>
        if c2 = ']' then some (JVal.arr [], r)
        else (parseItems fuel (c2 :: r)).map
          (fun p : List JVal × List Char => (JVal.arr p.1, p.2))
    else if c = '\x7b' then
      match rest with
      | [] => none
      | c2 :: r =>
        if c2 = '\x7d' then some (JVal.obj [], r)
        else (parseFields fuel (c2 :: r)).map
          (fun p : List (String × JVal) × List Char => (JVal.obj p.1, p.2))
    else (parseNumber (c :: rest)).map
      (fun p : Int × List Char => (JVal.num p.1, p.2))) = _
  rw [if_neg h1, if_neg h2, if_neg h3, if_neg h4, if_neg h5, if_neg h6]

/-- The array-tail parser after its first element has been consumed. -/
def itemsCont (fuel : Nat) :
    Option (JVal × List Char) → Option (List JVal × List Char)
  | none => none
  | some (v, rest) =>
    match rest with
    | [] => none
    | c :: r =>
      if c = ',' then (parseItems fuel r).map (fun p => (v :: p.1, p.2))
      else if c = ']' then some ([v], r)
      else none

theorem parseItems_eq (fuel : Nat) (input : List Char) :
    parseItems (fuel + 1) input = itemsCont fuel (parseVal fuel input) := by
  cases hv : parseVal fuel input with
  | none =>
    show (match parseVal fuel input with
      | none => none
      | some (v, rest) =>
        match rest with
        | [] => none
        | c :: r =>
          if c = ',' then (parseItems fuel r).map
            (fun p : List JVal × List Char => (v :: p.1, p.2))
          else if c = ']' then some ([v], r)
          else (none : Option (List JVal × List Char))) = _
    rw [hv]
    rfl
  | some p =>
    show (match parseVal fuel input with
      | none => none
      | some (v, rest) =>
        match rest with
        | [] => none
        | c :: r =>
          if c = ',' then (parseItems fuel r).map
            (fun p : List JVal × List Char => (v :: p.1, p.2))
          else if c = ']' then some ([v], r)
          else (none : Option (List JVal × List Char))) = _
    obtain ⟨v, rest⟩ := p
    rw [hv]
    rfl

theorem itemsCont_comma (fuel : Nat) (v : JVal) (r : List Char) :
    itemsCont fuel (some (v, ',' :: r)) =
      (parseItems fuel r).map (fun p => (v :: p.1, p.2)) := rfl

theorem itemsCont_close (fuel : Nat) (v : JVal) (r : List Char) :
    itemsCont fuel (some (v, ']' :: r)) = some ([v], r) := rfl

/-- The object-tail parser after a key and its value have been consumed. -/
def fieldsAfterKey (fuel : Nat) (k : String) :
    Option (JVal × List Char) → Option (List (String × JVal) × List Char)
  | none => none
  | some (v, r3) =>
    match r3 with
    | [] => none
    | c3 :: r4 =>
      if c3 = ',' then (parseFields fuel r4).map (fun p => ((k, v) :: p.1, p.2))
      else if c3 = '\x7d' then some ([(k, v)], r4)
      else none

theorem parseFields_key (fuel : Nat) (X kd Y : List Char)
    (hstr : parseStringBody X = some (kd, ':' :: Y)) :
    parseFields (fuel + 1) ('"' :: X) =
      fieldsAfterKey fuel (String.mk kd) (parseVal fuel Y) := by
  show (match parseStringBody X with
    | none => none
    | some (k, r1) =>
      match r1 with
      | [] => none
      | c2 :: r2 =>
        if c2 = ':' then
          match parseVal fuel r2 with
          | none => none
          | some (v, r3) =>
            match r3 with
            | [] => none
            | c3 :: r4 =>
              if c3 = ',' then (parseFields fuel r4).map
                (fun p : List (String × JVal) × List Char =>
                  ((String.mk k, v) :: p.1, p.2))
              else if c3 = '\x7d' then some ([(String.mk k, v)], r4)
              else none
        else none) = _
  rw [hstr]
  show (match parseVal fuel Y with
    | none => none
    | some (v, r3) =>
      match r3 with
      | [] => none
      | c3 :: r4 =>
        if c3 = ',' then (parseFields fuel r4).map
          (fun p : List (String × JVal) × List Char =>
            ((String.mk kd, v) :: p.1, p.2))
        else if c3 = '\x7d' then some ([(String.mk kd, v)], r4)
        else none) = _
  cases hv : parseVal fuel Y with
  | none => rfl
  | some p =>
    obtain ⟨v, r3⟩ := p
    rfl

theorem fieldsAfterKey_comma (fuel : Nat) (k : String) (v : JVal)
    (r : List Char) :
    fieldsAfterKey fuel k (some (v, ',' :: r)) =
      (parseFields fuel r).map (fun p => ((k, v) :: p.1, p.2)) := rfl

theorem fieldsAfterKey_close (fuel : Nat) (k : String) (v : JVal)
    (r : List Char) :
    fieldsAfterKey fuel k (some (v, '\x7d' :: r)) = some ([(k, v)], r) := rfl

/-- The fueled parser undoes the serializer: values, array tails and object
tails, by induction on the fuel. -/
theorem parse_stringify : ∀ fuel : Nat,
    (∀ (v : JVal) (rest : List Char), (stringifyV v).length ≤ fuel →
      sepOk rest → parseVal fuel (stringifyV v ++ rest) = some (v, rest)) ∧
    (∀ (x : JVal) (xs : List JVal) (rest : List Char),
      (stringifyItems (x :: xs)).length + 1 ≤ fuel → sepOk rest →
      parseItems fuel (stringifyItems (x :: xs) ++ ']' :: rest) =
        some (x :: xs, rest)) ∧
    (∀ (f : String × JVal) (fs : List (String × JVal)) (rest : List Char),
      (stringifyFields (f :: fs)).length + 1 ≤ fuel → sepOk rest →
      parseFields fuel (stringifyFields (f :: fs) ++ '\x7d' :: rest) =
        some (f :: fs, rest)) := by
  intro fuel
  induction fuel with
  | zero =>
    refine ⟨?_, fun _ _ _ h _ => by omega, fun _ _ _ h _ => by omega⟩
    intro v rest hlen _
    obtain ⟨c, tl, hct, -, -⟩ := stringifyV_head v
    rw [hct] at hlen
    simp at hlen
  | succ fuel ih =>
    obtain ⟨ihV, ihI, ihF⟩ := ih
    refine ⟨?_, ?_, ?_⟩
    · intro v rest hlen hsep
      cases v with
      | null =>
        rw [show stringifyV .null ++ rest = 'n' :: 'u' :: 'l' :: 'l' :: rest
          from rfl, parseVal_null]
      | bool b =>
        cases b with
        | true =>
          rw [show stringifyV (.bool true) ++ rest =
            't' :: 'r' :: 'u' :: 'e' :: rest from rfl, parseVal_true]
        | false =>
          rw [show stringifyV (.bool false) ++ rest =
            'f' :: 'a' :: 'l' :: 's' :: 'e' :: rest from rfl, parseVal_false]
      | num i =>
        obtain ⟨c, tl, hct, n1, n2, n3, n4, n5, n6⟩ := intToDigits_head_ne i
        rw [show stringifyV (.num i) = intToDigits i from rfl, hct,
          List.cons_append, parseVal_other fuel c (tl ++ rest) n1 n2 n3 n4 n5 n6]
        rw [show c :: (tl ++ rest) = (c :: tl) ++ rest from rfl, ← hct,
          parseNumber_intToDigits i rest hsep]
        rfl
      | str s =>
        rw [show stringifyV (.str s) ++ rest =
          '"' :: (escBody s.data ++ '"' :: rest) from by
            show ('"' :: escBody s.data ++ ['"']) ++ rest = _
            simp [List.append_assoc]]
        rw [parseVal_str, parseStringBody_escBody s.data rest]
        rfl
      | arr xs =>
        cases xs with
        | nil =>
          rw [show stringifyV (.arr []) ++ rest = '[' :: ']' :: rest from rfl,
            parseVal_arrNil]
        | cons x t =>
          obtain ⟨c, tl, hct, hne1, hne2⟩ := stringifyItems_head x t
          have hbound : (stringifyItems (x :: t)).length + 1 ≤ fuel := by
            have hform : stringifyV (.arr (x :: t)) =
                '[' :: (stringifyItems (x :: t) ++ [']']) := rfl
            rw [hform] at hlen
            simp [List.length_append] at hlen
            omega
          rw [show stringifyV (.arr (x :: t)) ++ rest =
            '[' :: (c :: (tl ++ ']' :: rest)) from by
              show ('[' :: stringifyItems (x :: t) ++ [']']) ++ rest = _
              rw [List.cons_append, hct]
              simp [List.append_assoc]]
          rw [parseVal_arrCons fuel c (tl ++ ']' :: rest) hne1]
          rw [show c :: (tl ++ ']' :: rest) = (c :: tl) ++ ']' :: rest from rfl,
            ← hct, ihI x t rest hbound hsep]
          rfl
      | obj fs =>
        cases fs with
        | nil =>
          rw [show stringifyV (.obj []) ++ rest = '\x7b' :: '\x7d' :: rest
            from rfl, parseVal_objNil]
        | cons f t =>
          obtain ⟨tl, hct⟩ := stringifyFields_head f t
          have hbound : (stringifyFields (f :: t)).length + 1 ≤ fuel := by
            have hform : stringifyV (.obj (f :: t)) =
                '\x7b' :: (stringifyFields (f :: t) ++ ['\x7d']) := rfl
            rw [hform] at hlen
            simp [List.length_append] at hlen
            omega
          rw [show stringifyV (.obj (f :: t)) ++ rest =
            '\x7b' :: ('"' :: (tl ++ '\x7d' :: rest)) from by
              show ('\x7b' :: stringifyFields (f :: t) ++ ['\x7d']) ++ rest = _
              rw [List.cons_append, hct]
              simp [List.append_assoc]]
          rw [parseVal_objCons fuel '"' (tl ++ '\x7d' :: rest) (by decide)]
          rw [show ('"' : Char) :: (tl ++ '\x7d' :: rest) =
            ('"' :: tl) ++ '\x7d' :: rest from rfl,
            ← hct, ihF f t rest hbound hsep]
          rfl
    · intro x xs rest hlen hsep
      rw [parseItems_eq]
      cases xs with
      | nil =>
        have hb : (stringifyV x).length ≤ fuel := by
          have hform : stringifyItems [x] = stringifyV x := rfl
          rw [hform] at hlen
          omega
        rw [show stringifyItems [x] ++ ']' :: rest =
          stringifyV x ++ ']' :: rest from rfl,
          ihV x (']' :: rest) hb (sepOk_cons _ _ (by decide))]
        rfl
      | cons y t =>
        have hx : stringifyItems (x :: y :: t) =
            stringifyV x ++ ',' :: stringifyItems (y :: t) := rfl
        have hlens : (stringifyV x).length +
            (stringifyItems (y :: t)).length + 2 ≤ fuel + 1 := by
          rw [hx] at hlen
          simp [List.length_append] at hlen
          omega
        have hlx : 1 ≤ (stringifyV x).length := by
          obtain ⟨c, tl, hct, -, -⟩ := stringifyV_head x
          rw [hct]
          simp
        have hbx : (stringifyV x).length ≤ fuel := by omega
        have hby : (stringifyItems (y :: t)).length + 1 ≤ fuel := by omega
        rw [show stringifyItems (x :: y :: t) ++ ']' :: rest =
          stringifyV x ++ (',' :: (stringifyItems (y :: t) ++ ']' :: rest))
          from by
            rw [hx]
            simp [List.append_assoc]]
        rw [ihV x _ hbx (sepOk_cons _ _ (by decide))]
        rw [itemsCont_comma, ihI y t rest hby hsep]
        rfl
    · intro f fs rest hlen hsep
      obtain ⟨k, v⟩ := f
      have hesc : escapeString k = '"' :: (escBody k.data ++ ['"']) := rfl
      cases fs with
      | nil =>
        have hform : stringifyFields [(k, v)] =
            escapeString k ++ ':' :: stringifyV v := rfl
        have hbv : (stringifyV v).length ≤ fuel := by
          rw [hform] at hlen
          simp [List.length_append] at hlen
          omega
        rw [show stringifyFields [(k, v)] ++ '\x7d' :: rest =
          '"' :: (escBody k.data ++ '"' ::
            (':' :: (stringifyV v ++ '\x7d' :: rest))) from by
            rw [hform, hesc]
            simp [List.append_assoc]]
        rw [parseFields_key fuel _ k.data _
          (parseStringBody_escBody k.data (':' :: (stringifyV v ++ '\x7d' :: rest)))]
        rw [mk_data, ihV v ('\x7d' :: rest) hbv (sepOk_cons _ _ (by decide))]
        rfl
      | cons f2 t =>
        have hform : stringifyFields ((k, v) :: f2 :: t) =
            escapeString k ++ ':' :: stringifyV v ++
              ',' :: stringifyFields (f2 :: t) := rfl
        have hlen2 : (escapeString k).length + (stringifyV v).length +
            (stringifyFields (f2 :: t)).length + 3 ≤ fuel + 1 := by
          rw [hform] at hlen
          simp [List.length_append] at hlen
          omega
        have hbv : (stringifyV v).length ≤ fuel := by omega
        have hbf : (stringifyFields (f2 :: t)).length + 1 ≤ fuel := by omega
        rw [show stringifyFields ((k, v) :: f2 :: t) ++ '\x7d' :: rest =
          '"' :: (escBody k.data ++ '"' :: (':' :: (stringifyV v ++
            ',' :: (stringifyFields (f2 :: t) ++ '\x7d' :: rest)))) from by
            rw [hform, hesc]
            simp [List.append_assoc]]
        rw [parseFields_key fuel _ k.data _
          (parseStringBody_escBody k.data (':' :: (stringifyV v ++
            ',' :: (stringifyFields (f2 :: t) ++ '\x7d' :: rest))))]
        rw [mk_data, ihV v _ hbv (sepOk_cons _ _ (by decide))]
        rw [fieldsAfterKey_comma, ihF f2 t rest hbf hsep]
        rfl

/-- Parsing a serialized value gives the value back. -/
theorem jsonParse_jsonStringify (v : JVal) :
    jsonParse (jsonStringify v) = some v := by
  unfold jsonParse jsonStringify
  have hdata : (String.mk (stringifyV v)).data = stringifyV v := rfl
  rw [hdata]
  have h := (parse_stringify ((stringifyV v).length + 1)).1 v []
    (by omega) trivial
  rw [List.append_nil] at h
  rw [h]

/-- The stored string of a non-string value is its serialization. -/
theorem stringValueOf (v : JVal) (hv : isStructured v = true) :
    stringValueOfJs v = jsonStringify v := by
  unfold stringValueOfJs
  cases v with
  | str s => exact absurd hv (by simp [isStructured])
  | null => rfl
  | bool b => rfl
  | num i => rfl
  | arr xs => rfl
  | obj fs => rfl

/-- C10: a structured (object or array) value stored with `setCache` under a
positive TTL is returned structurally identical by `getCache` at any time
before the TTL expires. -/
theorem c10_cache_roundtrip (st : RedisState) (now t : Nat) (key : String)
    (v : JVal) (hv : isStructured v = true) (ttl : Int) (h1 : 0 < ttl)
    (h2 : t < now + ttl.toNat) :
    getCache (setCache st now key v ttl) t key = some v := by
  have hget : redisGet (setCache st now key v ttl) t ("cache:" ++ key) =
      some (jsonStringify v) := by
    unfold setCache
    rw [stringValueOf v hv, if_pos h1]
    unfold redisSet redisGet
    rw [List.find?_cons_of_pos _ (by simp)]
    show (match (Option.map (fun ttl => now + ttl) (some ttl.toNat) :
        Option Nat) with
      | none => some (jsonStringify v)
      | some t2 => if t < t2 then some (jsonStringify v) else none) = _
    rw [show (Option.map (fun ttl => now + ttl) (some ttl.toNat) :
      Option Nat) = some (now + ttl.toNat) from rfl]
    show (if t < now + ttl.toNat then some (jsonStringify v) else none) = _
    rw [if_pos h2]
  unfold getCache
  rw [hget]
  show (match jsonParse (jsonStringify v) with
    | some w => some w
    | none => some (.str (jsonStringify v))) = some v
  rw [jsonParse_jsonStringify]

/-- C10 witness: a concrete nested object cached for 600 seconds and read
back 300 seconds later. -/
theorem c10_cache_roundtrip_witness :
    getCache (setCache [] 1000 "patient_summary_1"
      (.obj [("score", .num 85), ("levels", .arr [.str "high", .bool true,
        .null, .num (-2)])]) 600) 1300 "patient_summary_1" =
      some (.obj [("score", .num 85), ("levels", .arr [.str "high", .bool true,
        .null, .num (-2)])]) :=
  c10_cache_roundtrip [] 1000 1300 "patient_summary_1"
    (.obj [("score", .num 85), ("levels", .arr [.str "high", .bool true,
      .null, .num (-2)])]) (by decide) 600 (by decide) (by decide)

end MediSync
